import Mathlib

/-!
Shallow embedding of the Layma interactive layout editor
(`projects/layma/src/lib/model/model.ts`, `.../editor/snap.ts`,
`.../layma-editor/layma-editor.component.ts`).

Numbers are modelled as rationals (`ℚ`): every numeric value the editor
manipulates is finite, and JavaScript `Number.isFinite` guards are therefore
vacuously true in the embedding (they are noted in comments where the source
has them).  `Math.round` is modelled by `jsRound` (`⌊q + 1/2⌋`), which agrees
with JavaScript's round-half-up semantics on all finite inputs.
-/

namespace Layma

/-- A pointer position in page millimetres (`{xMm, yMm}` object literals). -/
structure PointMm where
  xMm : ℚ
  yMm : ℚ
deriving DecidableEq, Repr

/-- A box in page millimetres (`{xMm, yMm, widthMm, heightMm}`). -/
structure BoxMm where
  xMm : ℚ
  yMm : ℚ
  widthMm : ℚ
  heightMm : ℚ
deriving DecidableEq, Repr

/-- `clampMm(valueMm, minMm, maxMm)` from `model.ts`:
`Math.max(minMm, Math.min(maxMm, valueMm))`. -/
def clampMm (valueMm minMm maxMm : ℚ) : ℚ :=
  max minMm (min maxMm valueMm)

/-- `normalizeBoxMm` from `model.ts`: flip negative width/height so that the
returned box has non-negative size and covers the same absolute region. -/
def normalizeBoxMm (box : BoxMm) : BoxMm :=
  { xMm := if 0 ≤ box.widthMm then box.xMm else box.xMm + box.widthMm
    yMm := if 0 ≤ box.heightMm then box.yMm else box.yMm + box.heightMm
    widthMm := |box.widthMm|
    heightMm := |box.heightMm| }

/-- JavaScript `Math.round` on finite inputs: round half away from minus
infinity, i.e. `⌊q + 1/2⌋`. -/
def jsRound (q : ℚ) : ℤ :=
  ⌊q + 1 / 2⌋

/-- `snapMm(valueMm, gridSizeMm)` from `snap.ts`.  The source first returns
`valueMm` unchanged when `valueMm` or `gridSizeMm` is not finite; over `ℚ`
every value is finite, so only the `gridSizeMm <= 0` guard remains. -/
def snapMm (valueMm gridSizeMm : ℚ) : ℚ :=
  if gridSizeMm ≤ 0 then valueMm
  else (jsRound (valueMm / gridSizeMm) : ℚ) * gridSizeMm

/-- `snapBoxMm` from `snap.ts`: snap each of the four box fields. -/
def snapBoxMm (box : BoxMm) (gridSizeMm : ℚ) : BoxMm :=
  { xMm := snapMm box.xMm gridSizeMm
    yMm := snapMm box.yMm gridSizeMm
    widthMm := snapMm box.widthMm gridSizeMm
    heightMm := snapMm box.heightMm gridSizeMm }

/-! ## Data model (`model.ts`) -/

/-- `LaymaSection`. -/
inductive LaymaSection where
  | header
  | body
  | footer
deriving DecidableEq, Repr

/-- `LaymaElementType`. -/
inductive LaymaElementType where
  | text
  | rect
  | line
  | image
  | table
deriving DecidableEq, Repr

/-- `'left' | 'center' | 'right'` alignment. -/
inductive LaymaAlign where
  | left
  | center
  | right
deriving DecidableEq, Repr

/-- `LaymaImageElement.objectFit` values. -/
inductive LaymaObjectFit where
  | contain
  | cover
  | fill
  | none
deriving DecidableEq, Repr

/-- `LaymaTableColumn`. -/
structure LaymaTableColumn where
  widthMm : ℚ
  align : LaymaAlign
deriving DecidableEq, Repr

/-- `LaymaTableCell`. -/
structure LaymaTableCell where
  text : String
  isHeader : Bool
deriving DecidableEq, Repr

/-- Payload of a `LaymaTextElement` beyond the shared base fields. -/
structure LaymaTextProps where
  text : String
  fontFamily : String
  fontSizePt : ℚ
  color : String
  align : LaymaAlign
  paddingMm : ℚ
deriving DecidableEq, Repr

/-- Payload of a `LaymaRectElement` beyond the shared base fields. -/
structure LaymaRectProps where
  fillColor : String
  borderColor : String
  borderWidthMm : ℚ
  borderRadiusMm : ℚ
deriving DecidableEq, Repr

/-- Payload of a `LaymaLineElement` beyond the shared base fields. -/
structure LaymaLineProps where
  color : String
deriving DecidableEq, Repr

/-- Payload of a `LaymaImageElement` beyond the shared base fields. -/
structure LaymaImageProps where
  dataUri : String
  objectFit : LaymaObjectFit
  opacity : ℚ
  borderRadiusMm : ℚ
  aspectRatioLocked : Bool
deriving DecidableEq, Repr

/-- Payload of a `LaymaTableElement` beyond the shared base fields
(`tableDataset` is the optional binding metadata). -/
structure LaymaTableProps where
  columns : List LaymaTableColumn
  header : List LaymaTableCell
  rowTemplate : List LaymaTableCell
  tableDataset : Option String
  borderColor : String
  borderWidthMm : ℚ
  headerBackground : String
deriving DecidableEq, Repr

/-- The variant payload of `LaymaElement`; the constructor is the `type`
discriminant of the TypeScript union. -/
inductive LaymaElementData where
  | text (props : LaymaTextProps)
  | rect (props : LaymaRectProps)
  | line (props : LaymaLineProps)
  | image (props : LaymaImageProps)
  | table (props : LaymaTableProps)
deriving DecidableEq, Repr

/-- `LaymaElement`: shared base fields (`LaymaElementBase`) plus the variant
payload.  The `type` field of the source is `data`'s constructor tag. -/
structure LaymaElement where
  id : String
  «section» : LaymaSection
  xMm : ℚ
  yMm : ℚ
  widthMm : ℚ
  heightMm : ℚ
  data : LaymaElementData
deriving DecidableEq, Repr

/-- The `type` discriminant of an element. -/
def LaymaElement.elemType (el : LaymaElement) : LaymaElementType :=
  match el.data with
  | .text _ => .text
  | .rect _ => .rect
  | .line _ => .line
  | .image _ => .image
  | .table _ => .table

/-- `LaymaPage`. -/
structure LaymaPage where
  widthMm : ℚ
  heightMm : ℚ
deriving DecidableEq, Repr

/-- `LaymaDocument`. -/
structure LaymaDocument where
  page : LaymaPage
  headerHeightMm : ℚ
  footerHeightMm : ℚ
  elements : List LaymaElement
deriving DecidableEq, Repr

/-- `A4_PORTRAIT_PAGE`. -/
def A4_PORTRAIT_PAGE : LaymaPage :=
  { widthMm := 210, heightMm := 297 }

/-! ## Section bounds (`sectionHeights` / `sectionBoundsMm` in the editor
component) -/

/-- Result of the `sectionHeights` computed signal. -/
structure SectionHeights where
  headerHeightMm : ℚ
  footerHeightMm : ℚ
  bodyHeightMm : ℚ
  pageHeightMm : ℚ
deriving DecidableEq, Repr

/-- `sectionHeights`: clamp header/footer heights into the page height; the
`??` fallbacks of the source never fire in the embedding because `page`,
`headerHeightMm` and `footerHeightMm` are always present. -/
def sectionHeights (doc : LaymaDocument) : SectionHeights :=
  let pageH := doc.page.heightMm
  let header := max 0 (min pageH doc.headerHeightMm)
  let footer := max 0 (min (pageH - header) doc.footerHeightMm)
  let body := max 0 (pageH - header - footer)
  { headerHeightMm := header
    footerHeightMm := footer
    bodyHeightMm := body
    pageHeightMm := pageH }

/-- `{topMm, bottomMm}` vertical bounds of a section. -/
structure SectionBounds where
  topMm : ℚ
  bottomMm : ℚ
deriving DecidableEq, Repr

/-- `sectionBoundsMm(section)` from the editor component. -/
def sectionBoundsMm (doc : LaymaDocument) (sec : LaymaSection) : SectionBounds :=
  let h := sectionHeights doc
  match sec with
  | .header => { topMm := 0, bottomMm := h.headerHeightMm }
  | .footer => { topMm := h.pageHeightMm - h.footerHeightMm, bottomMm := h.pageHeightMm }
  | .body => { topMm := h.headerHeightMm, bottomMm := h.pageHeightMm - h.footerHeightMm }

/-! ## Document store (`applyDocument`, table-column invariant, input mirror) -/

/-- `normalizeTableColumns(columns, widthMm)`: redistribute the table width
evenly over the columns (empty column list stays empty). -/
def normalizeTableColumns (columns : List LaymaTableColumn) (widthMm : ℚ) :
    List LaymaTableColumn :=
  if columns.isEmpty then []
  else
    let w := widthMm / (columns.length : ℚ)
    columns.map fun col => { col with widthMm := w }

/-- The per-element body of `applyDocument`'s `elements.map`: non-tables pass
through, tables get their columns renormalised against the element width. -/
def normalizeElementTables (el : LaymaElement) : LaymaElement :=
  match el.data with
  | .table props =>
      { el with data := .table { props with columns := normalizeTableColumns props.columns el.widthMm } }
  | _ => el

/-- `applyDocument(nextDocument)`: the committed document — every table's
columns renormalised.  (The source then stores this value and synchronously
emits it; the stored/emitted value is the function's result.) -/
def applyDocument (nextDocument : LaymaDocument) : LaymaDocument :=
  { nextDocument with elements := nextDocument.elements.map normalizeElementTables }

/-- The document-mirror `effect` of the constructor
(`this.documentState.set(this.document())`): an externally supplied document
is stored verbatim, without passing through `applyDocument`. -/
def mirrorDocumentIntoStore (doc : LaymaDocument) : LaymaDocument :=
  doc

/-! ## Drag state and editor configuration -/

/-- `LaymaTool`. -/
inductive LaymaTool where
  | select
  | text
  | rect
  | line
  | image
  | table
deriving DecidableEq, Repr

/-- `ResizeHandle`. -/
inductive ResizeHandle where
  | n
  | ne
  | e
  | se
  | s
  | sw
  | w
  | nw
deriving DecidableEq, Repr

/-- `drag.handle.includes('w')`. -/
def ResizeHandle.hasW : ResizeHandle → Bool
  | .w | .sw | .nw => true
  | _ => false

/-- `drag.handle.includes('e')`. -/
def ResizeHandle.hasE : ResizeHandle → Bool
  | .e | .ne | .se => true
  | _ => false

/-- `drag.handle.includes('n')`. -/
def ResizeHandle.hasN : ResizeHandle → Bool
  | .n | .ne | .nw => true
  | _ => false

/-- `drag.handle.includes('s')`. -/
def ResizeHandle.hasS : ResizeHandle → Bool
  | .s | .se | .sw => true
  | _ => false

/-- `drag.handle.length === 2` (the four corner handles). -/
def ResizeHandle.isCorner : ResizeHandle → Bool
  | .ne | .se | .sw | .nw => true
  | _ => false

/-- `drag.handle === 'e' || drag.handle === 'w'`. -/
def ResizeHandle.isHorizontal : ResizeHandle → Bool
  | .e | .w => true
  | _ => false

/-- `DragStateMove`. -/
structure DragStateMove where
  elementId : String
  startPointerMm : PointMm
  startElementMm : PointMm
deriving DecidableEq, Repr

/-- `DragStateResize`. -/
structure DragStateResize where
  elementId : String
  handle : ResizeHandle
  startPointerMm : PointMm
  startBoxMm : BoxMm
deriving DecidableEq, Repr

/-- `DragStateCreate` (`tool` is `Exclude<LaymaTool,'select'>` in the source;
the embedding keeps the full enum). -/
structure DragStateCreate where
  tool : LaymaTool
  elementId : String
  startPointerMm : PointMm
deriving DecidableEq, Repr

/-- `DragStateMarquee`. -/
structure DragStateMarquee where
  startPointerMm : PointMm
deriving DecidableEq, Repr

/-- `DragStateMultiMove`; `startPositions` is the `Map` captured at
pointer-down, modelled as an association list in document order. -/
structure DragStateMultiMove where
  elementIds : List String
  startPointerMm : PointMm
  startPositions : List (String × PointMm)
deriving DecidableEq, Repr

/-- The `DragState` tagged union. -/
inductive DragState where
  | none
  | move (drag : DragStateMove)
  | resize (drag : DragStateResize)
  | create (drag : DragStateCreate)
  | marquee (drag : DragStateMarquee)
  | multiMove (drag : DragStateMultiMove)
deriving DecidableEq, Repr

/-- The editor inputs that parameterise drag maths: `gridSizeMm` and
`snapEnabled` (defaults 5 and `true`). -/
structure EditorConfig where
  gridSizeMm : ℚ
  snapEnabled : Bool
deriving DecidableEq, Repr

/-- Default configuration: grid 5mm, snapping on. -/
def defaultConfig : EditorConfig :=
  { gridSizeMm := 5, snapEnabled := true }

/-! ## Drag commits (`applyMove`, `applyMultiMove`, `applyResize`,
`applyCreate`, `moveSelectedBy`) -/

/-- The per-element body of `applyMove`'s `elements.map`. -/
def applyMoveElement (cfg : EditorConfig) (doc : LaymaDocument) (drag : DragStateMove)
    (pointerMm : PointMm) (el : LaymaElement) : LaymaElement :=
  if el.id ≠ drag.elementId then el
  else
    let dxMm := pointerMm.xMm - drag.startPointerMm.xMm
    let dyMm := pointerMm.yMm - drag.startPointerMm.yMm
    let nextX0 := drag.startElementMm.xMm + dxMm
    let nextY0 := drag.startElementMm.yMm + dyMm
    let nextX := if cfg.snapEnabled then snapMm nextX0 cfg.gridSizeMm else nextX0
    let nextY := if cfg.snapEnabled then snapMm nextY0 cfg.gridSizeMm else nextY0
    let maxX := max 0 (doc.page.widthMm - el.widthMm)
    let b := sectionBoundsMm doc el.section
    let maxY := max b.topMm (b.bottomMm - el.heightMm)
    { el with xMm := max 0 (min maxX nextX), yMm := max b.topMm (min maxY nextY) }

/-- `applyMove`: move the dragged element from its start snapshot by the
pointer delta, snap, clamp to page/section, and commit via `applyDocument`. -/
def applyMove (cfg : EditorConfig) (doc : LaymaDocument) (drag : DragStateMove)
    (pointerMm : PointMm) : LaymaDocument :=
  applyDocument { doc with elements := doc.elements.map (applyMoveElement cfg doc drag pointerMm) }

/-- The per-element body of `applyMultiMove`'s `elements.map`: elements with a
captured start position move by the shared delta, others pass through. -/
def applyMultiMoveElement (cfg : EditorConfig) (doc : LaymaDocument)
    (drag : DragStateMultiMove) (pointerMm : PointMm) (el : LaymaElement) : LaymaElement :=
  match drag.startPositions.lookup el.id with
  | Option.none => el
  | Option.some start =>
    let dxMm := pointerMm.xMm - drag.startPointerMm.xMm
    let dyMm := pointerMm.yMm - drag.startPointerMm.yMm
    let nextX0 := start.xMm + dxMm
    let nextY0 := start.yMm + dyMm
    let nextX := if cfg.snapEnabled then snapMm nextX0 cfg.gridSizeMm else nextX0
    let nextY := if cfg.snapEnabled then snapMm nextY0 cfg.gridSizeMm else nextY0
    let maxX := max 0 (doc.page.widthMm - el.widthMm)
    let b := sectionBoundsMm doc el.section
    let maxY := max b.topMm (b.bottomMm - el.heightMm)
    { el with xMm := max 0 (min maxX nextX), yMm := max b.topMm (min maxY nextY) }

/-- `applyMultiMove`: apply the same pointer delta to every captured start
position, each element clamped to the page and its own section. -/
def applyMultiMove (cfg : EditorConfig) (doc : LaymaDocument) (drag : DragStateMultiMove)
    (pointerMm : PointMm) : LaymaDocument :=
  applyDocument
    { doc with elements := doc.elements.map (applyMultiMoveElement cfg doc drag pointerMm) }

/-- The per-element body of `moveSelectedBy`'s `elements.map`. -/
def moveSelectedByElement (cfg : EditorConfig) (doc : LaymaDocument) (ids : List String)
    (dxMm dyMm : ℚ) (el : LaymaElement) : LaymaElement :=
  if ¬ ids.contains el.id then el
  else
    let nextX0 := el.xMm + dxMm
    let nextY0 := el.yMm + dyMm
    let nextX := if cfg.snapEnabled then snapMm nextX0 cfg.gridSizeMm else nextX0
    let nextY := if cfg.snapEnabled then snapMm nextY0 cfg.gridSizeMm else nextY0
    let maxX := max 0 (doc.page.widthMm - el.widthMm)
    let b := sectionBoundsMm doc el.section
    let maxY := max b.topMm (b.bottomMm - el.heightMm)
    { el with xMm := max 0 (min maxX nextX), yMm := max b.topMm (min maxY nextY) }

/-- `moveSelectedBy(dxMm, dyMm)`: nudge every selected element, snapping the
resulting position and clamping to the page and the element's section.  The
selection set of the component is modelled as the id list `ids`. -/
def moveSelectedBy (cfg : EditorConfig) (doc : LaymaDocument) (ids : List String)
    (dxMm dyMm : ℚ) : LaymaDocument :=
  if ids.isEmpty then doc
  else
    applyDocument
      { doc with elements := doc.elements.map (moveSelectedByElement cfg doc ids dxMm dyMm) }

/-- The proposed box of `applyResize`, up to and including the aspect-ratio
lock (the `next` value of the source): edge reinterpretation by the handle,
normalisation, the 1mm minimum-size floor, then — for an aspect-locked image —
the height (corner/horizontal handles) or width (vertical handles) recomputed
from the aspect ratio of the drag's start box, never the live element. -/
def resizeAspectBox (doc : LaymaDocument) (drag : DragStateResize)
    (pointerMm : PointMm) : BoxMm :=
  let dxMm := pointerMm.xMm - drag.startPointerMm.xMm
  let dyMm := pointerMm.yMm - drag.startPointerMm.yMm
  let minSizeMm : ℚ := 1
  let box0 := drag.startBoxMm
  let box1 :=
    if drag.handle.hasW then { box0 with xMm := box0.xMm + dxMm, widthMm := box0.widthMm - dxMm }
    else box0
  let box2 := if drag.handle.hasE then { box1 with widthMm := box1.widthMm + dxMm } else box1
  let box3 :=
    if drag.handle.hasN then { box2 with yMm := box2.yMm + dyMm, heightMm := box2.heightMm - dyMm }
    else box2
  let box4 := if drag.handle.hasS then { box3 with heightMm := box3.heightMm + dyMm } else box3
  let normalized := normalizeBoxMm box4
  let next0 : BoxMm :=
    { xMm := normalized.xMm, yMm := normalized.yMm
      widthMm := max minSizeMm normalized.widthMm
      heightMm := max minSizeMm normalized.heightMm }
  match doc.elements.find? (fun el => el.id = drag.elementId) with
  | Option.some el =>
    match el.data with
    | .image props =>
      if props.aspectRatioLocked then
        let startAspect := drag.startBoxMm.widthMm / drag.startBoxMm.heightMm
        if drag.handle.isCorner || drag.handle.isHorizontal then
          { next0 with heightMm := next0.widthMm / startAspect }
        else
          { next0 with widthMm := next0.heightMm * startAspect }
      else next0
    | _ => next0
  | Option.none => next0

/-- The section the resized element is clamped to
(`targetEl?.section ?? 'body'`). -/
def resizeTargetSection (doc : LaymaDocument) (drag : DragStateResize) : LaymaSection :=
  match doc.elements.find? (fun el => el.id = drag.elementId) with
  | Option.some el => el.section
  | Option.none => .body

/-- The page-clamped stage of `applyResize` (the `clamped` value of the
source before the section clamp): the page clamp of the aspect-locked
proposal, then — when snapping is enabled — the grid snap with its
minimum-size re-clamp. -/
def resizePageClampedBox (cfg : EditorConfig) (doc : LaymaDocument) (drag : DragStateResize)
    (pointerMm : PointMm) : BoxMm :=
  let minSizeMm : ℚ := 1
  let next := resizeAspectBox doc drag pointerMm
  let page := doc.page
  let clamped0 : BoxMm :=
    { xMm := max 0 (min (page.widthMm - next.widthMm) next.xMm)
      yMm := max 0 (min (page.heightMm - next.heightMm) next.yMm)
      widthMm := min page.widthMm next.widthMm
      heightMm := min page.heightMm next.heightMm }
  if cfg.snapEnabled then
    let snapped := snapBoxMm clamped0 cfg.gridSizeMm
    { xMm := max 0 (min (page.widthMm - minSizeMm) snapped.xMm)
      yMm := max 0 (min (page.heightMm - minSizeMm) snapped.yMm)
      widthMm := max minSizeMm (min page.widthMm snapped.widthMm)
      heightMm := max minSizeMm (min page.heightMm snapped.heightMm) }
  else clamped0

/-- The box committed by `applyResize` (everything before the final
`elements.map`): the page-clamped stage followed by the section clamp of
`y`/`height`. -/
def resizeCommittedBox (cfg : EditorConfig) (doc : LaymaDocument) (drag : DragStateResize)
    (pointerMm : PointMm) : BoxMm :=
  let minSizeMm : ℚ := 1
  let clamped1 := resizePageClampedBox cfg doc drag pointerMm
  let bounds := sectionBoundsMm doc (resizeTargetSection doc drag)
  let yMm := max bounds.topMm (min (bounds.bottomMm - minSizeMm) clamped1.yMm)
  let heightMm := max minSizeMm (min (bounds.bottomMm - yMm) clamped1.heightMm)
  { clamped1 with yMm := yMm, heightMm := heightMm }

/-- `applyResize`: commit the resized box onto the dragged element (tables get
their columns renormalised against the new width) via `applyDocument`. -/
def applyResize (cfg : EditorConfig) (doc : LaymaDocument) (drag : DragStateResize)
    (pointerMm : PointMm) : LaymaDocument :=
  let clamped := resizeCommittedBox cfg doc drag pointerMm
  let elements := doc.elements.map fun el =>
    if el.id ≠ drag.elementId then el
    else
      let el' :=
        { el with xMm := clamped.xMm, yMm := clamped.yMm
                  widthMm := clamped.widthMm, heightMm := clamped.heightMm }
      match el.data with
      | .table props =>
          { el' with
            data := .table { props with columns := normalizeTableColumns props.columns clamped.widthMm } }
      | _ => el'
  applyDocument { doc with elements := elements }

/-- The section the created element is clamped to
(`targetEl?.section ?? this.activeSection()`). -/
def createTargetSection (doc : LaymaDocument) (activeSec : LaymaSection)
    (drag : DragStateCreate) : LaymaSection :=
  match doc.elements.find? (fun el => el.id = drag.elementId) with
  | Option.some el => el.section
  | Option.none => activeSec

/-- The pre-section stage of `applyCreate`: normalised drag rectangle, page
clamp with the minimum-size floor, then the optional grid snap (with no
re-clamp). -/
def createSnappedBox (cfg : EditorConfig) (doc : LaymaDocument)
    (drag : DragStateCreate) (pointerMm : PointMm) : BoxMm :=
  let box := normalizeBoxMm
    { xMm := drag.startPointerMm.xMm
      yMm := drag.startPointerMm.yMm
      widthMm := pointerMm.xMm - drag.startPointerMm.xMm
      heightMm := pointerMm.yMm - drag.startPointerMm.yMm }
  let minSizeMm : ℚ := 1
  let page := doc.page
  let clamped : BoxMm :=
    { xMm := max 0 (min (page.widthMm - minSizeMm) box.xMm)
      yMm := max 0 (min (page.heightMm - minSizeMm) box.yMm)
      widthMm := max minSizeMm (min page.widthMm box.widthMm)
      heightMm := max minSizeMm (min page.heightMm box.heightMm) }
  if cfg.snapEnabled then snapBoxMm clamped cfg.gridSizeMm else clamped

/-- The box committed by `applyCreate`: the snapped stage followed by the
section clamp of `y`/`height`. -/
def createCommittedBox (cfg : EditorConfig) (doc : LaymaDocument) (activeSec : LaymaSection)
    (drag : DragStateCreate) (pointerMm : PointMm) : BoxMm :=
  let minSizeMm : ℚ := 1
  let snapped := createSnappedBox cfg doc drag pointerMm
  let bounds := sectionBoundsMm doc (createTargetSection doc activeSec drag)
  let yMm := max bounds.topMm (min (bounds.bottomMm - minSizeMm) snapped.yMm)
  let heightMm := max minSizeMm (min (bounds.bottomMm - yMm) snapped.heightMm)
  { snapped with yMm := yMm, heightMm := heightMm }

/-- `applyCreate`: size the freshly inserted element to the committed box via
`applyDocument`. -/
def applyCreate (cfg : EditorConfig) (doc : LaymaDocument) (activeSec : LaymaSection)
    (drag : DragStateCreate) (pointerMm : PointMm) : LaymaDocument :=
  let snapped := createCommittedBox cfg doc activeSec drag pointerMm
  let elements := doc.elements.map fun el =>
    if el.id = drag.elementId then
      { el with xMm := snapped.xMm, yMm := snapped.yMm
                widthMm := snapped.widthMm, heightMm := snapped.heightMm }
    else el
  applyDocument { doc with elements := elements }

/-! ## Keyboard handling (`onGlobalKeyDown`, `deleteSelected`) -/

/-- The keys `onGlobalKeyDown` distinguishes. -/
inductive EditorKey where
  | delete
  | backspace
  | arrowLeft
  | arrowRight
  | arrowUp
  | arrowDown
  | other
deriving DecidableEq, Repr

/-- `deleteSelected`: drop every selected element and commit. -/
def deleteSelected (doc : LaymaDocument) (ids : List String) : LaymaDocument :=
  if ids.isEmpty then doc
  else applyDocument { doc with elements := doc.elements.filter (fun el => ! ids.contains el.id) }

/-- `onGlobalKeyDown`: the typing-target guard, the empty-selection guard,
delete, and the arrow-key nudge.  Returns the resulting document and
selection. -/
def onGlobalKeyDown (cfg : EditorConfig) (doc : LaymaDocument) (ids : List String)
    (isTypingTarget : Bool) (key : EditorKey) (shift : Bool) :
    LaymaDocument × List String :=
  if isTypingTarget then (doc, ids)
  else if ids.isEmpty then (doc, ids)
  else
    match key with
    | .delete | .backspace => (deleteSelected doc ids, [])
    | .other => (doc, ids)
    | _ =>
      let baseStepMm := if cfg.snapEnabled then cfg.gridSizeMm else 1
      let stepMm := if shift then baseStepMm * 5 else baseStepMm
      let dxMm := if key = .arrowLeft then -stepMm else if key = .arrowRight then stepMm else 0
      let dyMm := if key = .arrowUp then -stepMm else if key = .arrowDown then stepMm else 0
      (moveSelectedBy cfg doc ids dxMm dyMm, ids)

/-! ## Marquee release (`onGlobalPointerUp`, marquee branch) -/

/-- The strict rectangle-intersection test of the marquee branch of
`onGlobalPointerUp`. -/
def strictlyOverlaps (el : LaymaElement) (box : BoxMm) : Prop :=
  el.xMm < box.xMm + box.widthMm ∧ el.xMm + el.widthMm > box.xMm ∧
  el.yMm < box.yMm + box.heightMm ∧ el.yMm + el.heightMm > box.yMm

instance (el : LaymaElement) (box : BoxMm) : Decidable (strictlyOverlaps el box) := by
  unfold strictlyOverlaps
  infer_instance

/-- The normalized marquee rectangle computed on release. -/
def marqueeBox (startPointerMm endMm : PointMm) : BoxMm :=
  normalizeBoxMm
    { xMm := startPointerMm.xMm
      yMm := startPointerMm.yMm
      widthMm := endMm.xMm - startPointerMm.xMm
      heightMm := endMm.yMm - startPointerMm.yMm }

/-- The selection computed by the marquee branch of `onGlobalPointerUp` once
the release pointer maps to `endMm`: ids of the elements of the active section
that strictly overlap the normalised marquee rectangle (the source collects
them into a `Set` in document order). -/
def marqueeReleaseSelection (doc : LaymaDocument) (activeSec : LaymaSection)
    (startPointerMm endMm : PointMm) : List String :=
  let box := marqueeBox startPointerMm endMm
  (doc.elements.filter fun el =>
    decide (el.section = activeSec) && decide (strictlyOverlaps el box)).map (·.id)

/-! ## Z-order (`bringForward`, `sendBackward`, `reorderSelected`) -/

/-- Exchange the entries at positions `i` and `i + 1`
(`copy[index] = copy[index+1]; copy[index+1] = tmp`). -/
def swapAdjacent {α : Type} (l : List α) (i : ℕ) : List α :=
  match l.get? i, l.get? (i + 1) with
  | Option.some a, Option.some b => (l.set i b).set (i + 1) a
  | _, _ => l

/-- The reorder callback of `bringForward`: swap the selected index with its
successor, returning the list unchanged at the top of the stack.  (In ℕ the
guard `index >= elements.length - 1` also fires for the empty list, exactly as
in JavaScript where `length - 1` is `-1`.) -/
def bringForwardStep (elements : List LaymaElement) (index : ℕ) : List LaymaElement :=
  if elements.length - 1 ≤ index then elements else swapAdjacent elements index

/-- The reorder callback of `sendBackward`: swap the selected index with its
predecessor, returning the list unchanged at the bottom of the stack. -/
def sendBackwardStep (elements : List LaymaElement) (index : ℕ) : List LaymaElement :=
  if index = 0 then elements else swapAdjacent elements (index - 1)

/-- `reorderSelected`: locate the primary selected id, run the reorder
callback, and commit only when it changed the list.  The source detects "no
change" by reference equality (`elements === doc.elements`); the embedding
uses structural equality, which agrees whenever a swap really exchanges two
distinct elements (always the case under unique ids). -/
def reorderSelected (doc : LaymaDocument) (primarySelectedId : Option String)
    (reorder : List LaymaElement → ℕ → List LaymaElement) : LaymaDocument :=
  match primarySelectedId with
  | Option.none => doc
  | Option.some selectedId =>
    match doc.elements.findIdx? (fun el => el.id = selectedId) with
    | Option.none => doc
    | Option.some index =>
      let elements := reorder doc.elements index
      if elements = doc.elements then doc
      else applyDocument { doc with elements := elements }

/-- `bringForward()` on the primary selected id. -/
def bringForward (doc : LaymaDocument) (primarySelectedId : Option String) : LaymaDocument :=
  reorderSelected doc primarySelectedId bringForwardStep

/-- `sendBackward()` on the primary selected id. -/
def sendBackward (doc : LaymaDocument) (primarySelectedId : Option String) : LaymaDocument :=
  reorderSelected doc primarySelectedId sendBackwardStep

/-! ## Coordinate mapper (`clientToPageMm`) -/

/-- The measured on-screen rectangle of the page surface
(`getBoundingClientRect`), in device pixels. -/
structure DomRect where
  left : ℚ
  top : ℚ
  width : ℚ
  height : ℚ
deriving DecidableEq, Repr

/-- `clientToPageMm(clientX, clientY)`: `null` when the measured surface has
non-positive width or height, otherwise the linear device→mm scaling with no
clamping. -/
def clientToPageMm (rect : DomRect) (doc : LaymaDocument) (clientX clientY : ℚ) :
    Option PointMm :=
  if rect.width ≤ 0 ∨ rect.height ≤ 0 then Option.none
  else
    let pageWidthMm := doc.page.widthMm
    let pageHeightMm := doc.page.heightMm
    let xPx := clientX - rect.left
    let yPx := clientY - rect.top
    Option.some { xMm := xPx * pageWidthMm / rect.width, yMm := yPx * pageHeightMm / rect.height }

/-! ## Default element creators (`createDefault*Element`).  Ids come from
`createLaymaElementId()` (a random UUID); the embedding threads the generated
id in as `freshId`. -/

/-- `createDefaultTextElement`. -/
def createDefaultTextElement (boxMm : BoxMm) (freshId : String) : LaymaElement :=
  let normalized := normalizeBoxMm boxMm
  { id := freshId, «section» := .body
    xMm := normalized.xMm, yMm := normalized.yMm
    widthMm := normalized.widthMm, heightMm := normalized.heightMm
    data := .text
      { text := "Text", fontFamily := "Arial, Helvetica, sans-serif", fontSizePt := 12
        color := "#111", align := .left, paddingMm := 1 } }

/-- `createDefaultRectElement`. -/
def createDefaultRectElement (boxMm : BoxMm) (freshId : String) : LaymaElement :=
  let normalized := normalizeBoxMm boxMm
  { id := freshId, «section» := .body
    xMm := normalized.xMm, yMm := normalized.yMm
    widthMm := normalized.widthMm, heightMm := normalized.heightMm
    data := .rect
      { fillColor := "transparent", borderColor := "#111"
        borderWidthMm := 3 / 10, borderRadiusMm := 0 } }

/-- `createDefaultLineElement` (enforces the 0.3mm minimum thickness). -/
def createDefaultLineElement (boxMm : BoxMm) (freshId : String) : LaymaElement :=
  let normalized := normalizeBoxMm boxMm
  let minThicknessMm : ℚ := 3 / 10
  { id := freshId, «section» := .body
    xMm := normalized.xMm, yMm := normalized.yMm
    widthMm := max normalized.widthMm minThicknessMm
    heightMm := max normalized.heightMm minThicknessMm
    data := .line { color := "#111" } }

/-- `createDefaultImageElement`. -/
def createDefaultImageElement (boxMm : BoxMm) (dataUri : String) (freshId : String) :
    LaymaElement :=
  let normalized := normalizeBoxMm boxMm
  { id := freshId, «section» := .body
    xMm := normalized.xMm, yMm := normalized.yMm
    widthMm := normalized.widthMm, heightMm := normalized.heightMm
    data := .image
      { dataUri := dataUri, objectFit := .contain, opacity := 1
        borderRadiusMm := 0, aspectRatioLocked := true } }

/-- `createDefaultTableElement`. -/
def createDefaultTableElement (boxMm : BoxMm) (freshId : String) : LaymaElement :=
  let normalized := normalizeBoxMm boxMm
  { id := freshId, «section» := .body
    xMm := normalized.xMm, yMm := normalized.yMm
    widthMm := normalized.widthMm, heightMm := normalized.heightMm
    data := .table
      { columns :=
          [ { widthMm := normalized.widthMm / 2, align := .left }
          , { widthMm := normalized.widthMm / 2, align := .left } ]
        header :=
          [ { text := "Header1", isHeader := true }
          , { text := "Header2", isHeader := true } ]
        rowTemplate :=
          [ { text := "#InvoiceLine_Field1#", isHeader := false }
          , { text := "#InvoiceLine_Field2#", isHeader := false } ]
        tableDataset := Option.none
        borderColor := "#cbd5e1", borderWidthMm := 3 / 10
        headerBackground := "#f3f4f6" } }

/-! ## Editor interaction state and pointer-down handlers -/

/-- `TableCellKind`. -/
inductive TableCellKind where
  | header
  | row
  | footer
deriving DecidableEq, Repr

/-- `TableCellEdit`. -/
structure TableCellEdit where
  elementId : String
  kind : TableCellKind
  index : ℕ
deriving DecidableEq, Repr

/-- The component's interaction state: the signals the pointer-down handlers
read and write, plus the `isDragging` flag of the global pointer tracking.
(The window listeners, pointer capture and the coalescing `rafId` slot are the
external effects of `beginGlobalPointerTracking`; `isDragging` is the guard
that makes them once-per-drag.) -/
structure EditorState where
  documentState : LaymaDocument
  tool : LaymaTool
  selectedElementIds : List String
  dragState : DragState
  pendingImageDataUri : Option String
  editingTextId : Option String
  editingTableCell : Option TableCellEdit
  marqueeEndMm : Option PointMm
  activeSection : LaymaSection
  isDragging : Bool
deriving DecidableEq, Repr

/-- `selectElement(elementId, additive)`: non-additive replaces the selection,
additive toggles membership (the JS `Set` keeps insertion order, modelled by
the duplicate-free list). -/
def selectElement (s : EditorState) (elementId : String) (additive : Bool) : EditorState :=
  let sel :=
    if additive then
      if s.selectedElementIds.contains elementId then s.selectedElementIds.erase elementId
      else s.selectedElementIds ++ [elementId]
    else [elementId]
  { s with editingTextId := Option.none, editingTableCell := Option.none
           selectedElementIds := sel, tool := .select }

/-- `clearSelection()`. -/
def clearSelection (s : EditorState) : EditorState :=
  { s with editingTextId := Option.none, editingTableCell := Option.none
           selectedElementIds := [] }

/-- `primarySelectedId`: the first member of the selection set. -/
def primarySelectedId (s : EditorState) : Option String :=
  s.selectedElementIds.head?

/-- `isPointerInActiveSection(pointerMm)`. -/
def isPointerInActiveSection (s : EditorState) (pointerMm : PointMm) : Bool :=
  let b := sectionBoundsMm s.documentState s.activeSection
  decide (b.topMm ≤ pointerMm.yMm) && decide (pointerMm.yMm ≤ b.bottomMm)

/-- `beginGlobalPointerTracking(event)`: a no-op when a drag is already being
tracked; otherwise flips `isDragging` (and, externally, captures the pointer
and attaches the window pointer listeners once). -/
def beginGlobalPointerTracking (s : EditorState) : EditorState :=
  if s.isDragging then s else { s with isDragging := true }

/-- `createElementForTool(tool, startPointerMm)`: `null` for the select tool;
otherwise append the default element for the tool (re-sized seed box, active
section) through `applyDocument` and report its id. -/
def createElementForTool (s : EditorState) (tool : LaymaTool) (startPointerMm : PointMm)
    (freshId : String) : Option (EditorState × String) :=
  if tool = .select then Option.none
  else
    let seedBox : BoxMm :=
      { xMm := startPointerMm.xMm, yMm := startPointerMm.yMm, widthMm := 1, heightMm := 1 }
    let sec := s.activeSection
    let el :=
      match tool with
      | .image =>
        let dataUri := s.pendingImageDataUri.getD ""
        { createDefaultImageElement seedBox dataUri freshId with «section» := sec }
      | .text =>
        { createDefaultTextElement { seedBox with widthMm := 40, heightMm := 10 } freshId with
          «section» := sec }
      | .rect =>
        { createDefaultRectElement { seedBox with widthMm := 40, heightMm := 25 } freshId with
          «section» := sec }
      | .line =>
        { createDefaultLineElement { seedBox with widthMm := 60, heightMm := 6 / 10 } freshId with
          «section» := sec }
      | _ =>
        { createDefaultTableElement { seedBox with widthMm := 80, heightMm := 30 } freshId with
          «section» := sec }
    let s' :=
      { s with documentState :=
          applyDocument { s.documentState with elements := s.documentState.elements ++ [el] } }
    Option.some (s', el.id)

/-- `onPagePointerDown(event)`.  `pointerMm?` is what `pointerToPageMm(event)`
returns for the event; `freshId` the id `createLaymaElementId()` would mint. -/
def onPagePointerDown (s : EditorState) (button : ℕ) (pointerMm? : Option PointMm)
    (freshId : String) : EditorState :=
  if button ≠ 0 then s
  else if s.tool = .select then
    match pointerMm? with
    | Option.none => clearSelection s
    | Option.some startPointerMm =>
      if ! isPointerInActiveSection s startPointerMm then clearSelection s
      else
        let s1 := clearSelection s
        let s2 := { s1 with marqueeEndMm := Option.some startPointerMm
                            dragState := .marquee ⟨startPointerMm⟩ }
        beginGlobalPointerTracking s2
  else
    match pointerMm? with
    | Option.none => s
    | Option.some startPointerMm =>
      if ! isPointerInActiveSection s startPointerMm then s
      else
        match createElementForTool s s.tool startPointerMm freshId with
        | Option.none => s
        | Option.some (s', elementId) =>
          beginGlobalPointerTracking
            { s' with selectedElementIds := [elementId]
                      dragState := .create ⟨s.tool, elementId, startPointerMm⟩ }

/-- The start-position capture shared by the two multi-move entries of
`onElementPointerDown` (`for (const el of doc.elements) if (ids.has(el.id))
startPositions.set(...)`). -/
def captureStartPositions (doc : LaymaDocument) (ids : List String) :
    List (String × PointMm) :=
  (doc.elements.filter fun el => ids.contains el.id).map fun el =>
    (el.id, PointMm.mk el.xMm el.yMm)

/-- `onElementPointerDown(event, elementId)`. -/
def onElementPointerDown (s : EditorState) (button : ℕ) (shiftKey : Bool)
    (pointerMm? : Option PointMm) (elementId : String) : EditorState :=
  if button ≠ 0 then s
  else if s.editingTextId = Option.some elementId then s
  else if s.editingTableCell.any (fun e => e.elementId == elementId) then s
  else
    let additive := shiftKey
    if s.selectedElementIds.contains elementId
        && decide (1 < s.selectedElementIds.length) && !additive then
      match pointerMm? with
      | Option.none => s
      | Option.some pointerMm =>
        let ids := s.selectedElementIds
        let startPositions := captureStartPositions s.documentState ids
        beginGlobalPointerTracking
          { s with dragState := .multiMove ⟨ids, pointerMm, startPositions⟩ }
    else
      let s1 := selectElement s elementId additive
      match pointerMm? with
      | Option.none => s1
      | Option.some pointerMm =>
        let ids := s1.selectedElementIds
        if 1 < ids.length then
          let startPositions := captureStartPositions s1.documentState ids
          beginGlobalPointerTracking
            { s1 with dragState := .multiMove ⟨ids, pointerMm, startPositions⟩ }
        else
          match s1.documentState.elements.find? (fun el => el.id = elementId) with
          | Option.none => s1
          | Option.some el =>
            beginGlobalPointerTracking
              { s1 with dragState := .move ⟨elementId, pointerMm, ⟨el.xMm, el.yMm⟩⟩ }

/-- `onResizeHandlePointerDown(event, handle)`. -/
def onResizeHandlePointerDown (s : EditorState) (button : ℕ) (handle : ResizeHandle)
    (pointerMm? : Option PointMm) : EditorState :=
  if button ≠ 0 then s
  else
    match primarySelectedId s with
    | Option.none => s
    | Option.some selectedId =>
      if s.selectedElementIds.length ≠ 1 then s
      else
        match pointerMm? with
        | Option.none => s
        | Option.some pointerMm =>
          match s.documentState.elements.find? (fun el => el.id = selectedId) with
          | Option.none => s
          | Option.some el =>
            beginGlobalPointerTracking
              { s with dragState :=
                  .resize ⟨selectedId, handle, pointerMm, ⟨el.xMm, el.yMm, el.widthMm, el.heightMm⟩⟩ }

/-! ## Concrete fixtures used by the example-based theorems -/

/-- A default-like rect payload for fixture elements. -/
def exRectData : LaymaElementData :=
  .rect { fillColor := "transparent", borderColor := "#111", borderWidthMm := 3 / 10
          borderRadiusMm := 0 }

/-- A 10×10 body rect at `x = 2` on an A4 page with 25mm header/footer. -/
def exDocNudge : LaymaDocument :=
  { page := A4_PORTRAIT_PAGE, headerHeightMm := 25, footerHeightMm := 25
    elements := [{ id := "a", «section» := .body, xMm := 2, yMm := 50
                   widthMm := 10, heightMm := 10, data := exRectData }] }

/-- An empty A4 document. -/
def exDocA4 : LaymaDocument :=
  { page := A4_PORTRAIT_PAGE, headerHeightMm := 25, footerHeightMm := 25, elements := [] }

/-! ## Claim C4 -/

/-- C4: with grid size 5 and snap enabled (the defaults), the right-arrow key
on the selected element at `x = 2` commits `x = 5`; Shift+right-arrow applies
a 25mm step and commits `x = snap(2 + 25, 5) = 25`, the nudge delta being
snapped like any other nudge. -/
theorem nudge_right_arrow_snaps :
    ((onGlobalKeyDown defaultConfig exDocNudge ["a"] false .arrowRight false).1.elements.map
        (·.xMm) = [5] ∧
      (onGlobalKeyDown defaultConfig exDocNudge ["a"] false .arrowRight false).1.elements.map
        (·.yMm) = [50]) ∧
    ((onGlobalKeyDown defaultConfig exDocNudge ["a"] false .arrowRight true).1.elements.map
        (·.xMm) = [25] ∧
      (25 : ℚ) = snapMm (2 + 5 * 5) 5) := by
  simp [onGlobalKeyDown, moveSelectedBy, moveSelectedByElement, applyDocument,
    normalizeElementTables, snapMm, jsRound, sectionBoundsMm, sectionHeights,
    defaultConfig, exDocNudge, exRectData, A4_PORTRAIT_PAGE, List.isEmpty, List.contains]
  norm_num

/-! ## Claim C8 -/

/-- C8: `clientToPageMm` returns `null` exactly when the measured page-surface
rectangle has non-positive width or height; otherwise it returns the exact
linear scaling `(deviceX − rect.left) · pageWidthMm / rect.width` (and the y
analogue) with no clamping, so out-of-page coordinates pass through. -/
theorem clientToPageMm_spec (rect : DomRect) (doc : LaymaDocument) (clientX clientY : ℚ) :
    (clientToPageMm rect doc clientX clientY = Option.none ↔
      rect.width ≤ 0 ∨ rect.height ≤ 0) ∧
    (0 < rect.width → 0 < rect.height →
      clientToPageMm rect doc clientX clientY =
        Option.some
          { xMm := (clientX - rect.left) * doc.page.widthMm / rect.width
            yMm := (clientY - rect.top) * doc.page.heightMm / rect.height }) := by
  constructor
  · unfold clientToPageMm
    split <;> simp_all
  · intro hw hh
    unfold clientToPageMm
    rw [if_neg]
    push_neg
    exact ⟨hw, hh⟩

/-- Witness for C8: a surface at `(10, 20)` measuring `100 × 200` device px
maps device point `(60, 120)` on the A4 page to `(105, 148.5)`mm, and a
point left of the surface to a negative (unclamped) coordinate. -/
theorem clientToPageMm_spec_witness :
    clientToPageMm ⟨10, 20, 100, 200⟩ exDocA4 60 120 =
        Option.some ⟨105, 297 / 2⟩ ∧
      clientToPageMm ⟨10, 20, 100, 200⟩ exDocA4 0 20 = Option.some ⟨-21, 0⟩ := by
  constructor
  · rw [(clientToPageMm_spec ⟨10, 20, 100, 200⟩ exDocA4 60 120).2 (by norm_num) (by norm_num)]
    norm_num [exDocA4, A4_PORTRAIT_PAGE]
  · rw [(clientToPageMm_spec ⟨10, 20, 100, 200⟩ exDocA4 0 20).2 (by norm_num) (by norm_num)]
    norm_num [exDocA4, A4_PORTRAIT_PAGE]

/-! ## Claim C10 -/

/-- C10: a pointer-down whose button is not the primary one (`button ≠ 0`) is
a complete no-op on the page background, on an element, and on a resize
handle: the whole editor state — document, selection, drag state — is
returned unchanged. -/
theorem nonPrimaryButton_pointerDown_noop (s : EditorState) (button : ℕ) (shiftKey : Bool)
    (pointerMm? : Option PointMm) (freshId elementId : String) (handle : ResizeHandle)
    (h : button ≠ 0) :
    onPagePointerDown s button pointerMm? freshId = s ∧
    onElementPointerDown s button shiftKey pointerMm? elementId = s ∧
    onResizeHandlePointerDown s button handle pointerMm? = s := by
  unfold onPagePointerDown onElementPointerDown onResizeHandlePointerDown
  simp [h]

/-- A fixture interaction state: three body elements, element `"a"` selected
and being moved, tracking active. -/
def exDoc3 : LaymaDocument :=
  { page := A4_PORTRAIT_PAGE, headerHeightMm := 25, footerHeightMm := 25
    elements :=
      [ { id := "a", «section» := .body, xMm := 0, yMm := 30, widthMm := 10, heightMm := 10
          data := exRectData }
      , { id := "b", «section» := .body, xMm := 20, yMm := 30, widthMm := 10, heightMm := 10
          data := exRectData }
      , { id := "c", «section» := .body, xMm := 40, yMm := 30, widthMm := 10, heightMm := 10
          data := exRectData } ] }

/-- A state in the middle of a move drag of element `"a"`. -/
def exDragActiveState : EditorState :=
  { documentState := exDoc3, tool := .select, selectedElementIds := ["a"]
    dragState := .move ⟨"a", ⟨1, 30⟩, ⟨0, 30⟩⟩
    pendingImageDataUri := Option.none, editingTextId := Option.none
    editingTableCell := Option.none, marqueeEndMm := Option.none
    activeSection := .body, isDragging := true }

/-- Witness for C10: with `button = 2` (right button) none of the three
handlers changes the drag-active fixture state. -/
theorem nonPrimaryButton_pointerDown_noop_witness :
    onPagePointerDown exDragActiveState 2 (Option.some ⟨5, 35⟩) "fresh" = exDragActiveState ∧
    onElementPointerDown exDragActiveState 2 false (Option.some ⟨5, 35⟩) "b" =
      exDragActiveState ∧
    onResizeHandlePointerDown exDragActiveState 2 .se (Option.some ⟨5, 35⟩) =
      exDragActiveState :=
  nonPrimaryButton_pointerDown_noop exDragActiveState 2 false (Option.some ⟨5, 35⟩) "fresh" "b"
    .se (by decide)

/-! ## Claim C5 -/

/-- Fixture element `A{x:0, y:0, w:10, h:10}` in the body section. -/
def exElA : LaymaElement :=
  { id := "A", «section» := .body, xMm := 0, yMm := 0, widthMm := 10, heightMm := 10
    data := exRectData }

/-- Fixture element `B{x:50, y:50, w:10, h:10}` in the body section. -/
def exElB : LaymaElement :=
  { id := "B", «section» := .body, xMm := 50, yMm := 50, widthMm := 10, heightMm := 10
    data := exRectData }

/-- Two 10×10 body elements `A` (at the origin) and `B` (at `(50, 50)`). -/
def exDocMarquee : LaymaDocument :=
  { page := A4_PORTRAIT_PAGE, headerHeightMm := 25, footerHeightMm := 25
    elements := [exElA, exElB] }

/-- C5: the marquee-release selection is exactly the ids of elements of the
active section whose box strictly overlaps the normalised marquee rectangle;
on the two-element fixture a `(0,0)–(20,20)` marquee selects exactly `{A}` and
a `(0,0)–(100,100)` marquee selects exactly `{A, B}`. -/
theorem marqueeRelease_selects_overlapping (doc : LaymaDocument) (activeSec : LaymaSection)
    (startP endP : PointMm) (i : String) :
    (i ∈ marqueeReleaseSelection doc activeSec startP endP ↔
      ∃ el ∈ doc.elements, el.id = i ∧ el.section = activeSec ∧
        strictlyOverlaps el (marqueeBox startP endP)) ∧
    marqueeReleaseSelection exDocMarquee .body ⟨0, 0⟩ ⟨20, 20⟩ = ["A"] ∧
    marqueeReleaseSelection exDocMarquee .body ⟨0, 0⟩ ⟨100, 100⟩ = ["A", "B"] := by
  refine ⟨?_,
    by norm_num [marqueeReleaseSelection, marqueeBox, normalizeBoxMm, strictlyOverlaps,
      exDocMarquee, exElA, exElB, exRectData],
    by norm_num [marqueeReleaseSelection, marqueeBox, normalizeBoxMm, strictlyOverlaps,
      exDocMarquee, exElA, exElB, exRectData]⟩
  unfold marqueeReleaseSelection
  simp only [List.mem_map, List.mem_filter, Bool.and_eq_true, decide_eq_true_eq]
  constructor
  · rintro ⟨el, ⟨hmem, hsec, hover⟩, rfl⟩
    exact ⟨el, hmem, rfl, hsec, hover⟩
  · rintro ⟨el, hmem, rfl, hsec, hover⟩
    exact ⟨el, ⟨hmem, hsec, hover⟩, rfl⟩

/-- Witness for C5 (the universal part instantiated): `"A"` is in the
selection of the `(0,0)–(20,20)` marquee on the fixture because `A` is a body
element strictly overlapping the marquee rectangle. -/
theorem marqueeRelease_selects_overlapping_witness :
    "A" ∈ marqueeReleaseSelection exDocMarquee .body ⟨0, 0⟩ ⟨20, 20⟩ ∧
    "B" ∉ marqueeReleaseSelection exDocMarquee .body ⟨0, 0⟩ ⟨20, 20⟩ := by
  constructor
  · exact (marqueeRelease_selects_overlapping exDocMarquee .body ⟨0, 0⟩ ⟨20, 20⟩ "A").1.mpr
      ⟨exElA, by norm_num [exDocMarquee], rfl, rfl,
        by norm_num [exElA, strictlyOverlaps, marqueeBox, normalizeBoxMm]⟩
  · intro hmem
    obtain ⟨el, hel, hid, -, hover⟩ :=
      (marqueeRelease_selects_overlapping exDocMarquee .body ⟨0, 0⟩ ⟨20, 20⟩ "B").1.mp hmem
    rw [show exDocMarquee.elements = [exElA, exElB] from rfl] at hel
    simp only [List.mem_cons, List.not_mem_nil, or_false] at hel
    rcases hel with rfl | rfl
    · exact absurd hid (by rw [show exElA.id = "A" from rfl]; decide)
    · revert hover
      norm_num [exElB, strictlyOverlaps, marqueeBox, normalizeBoxMm]

/-! ## Claim C3 -/

/-- `beginGlobalPointerTracking` leaves the document untouched. -/
theorem beginGlobalPointerTracking_documentState (s : EditorState) :
    (beginGlobalPointerTracking s).documentState = s.documentState := by
  unfold beginGlobalPointerTracking
  split <;> rfl

/-- `beginGlobalPointerTracking` always ends with tracking active. -/
theorem beginGlobalPointerTracking_isDragging (s : EditorState) :
    (beginGlobalPointerTracking s).isDragging = true := by
  unfold beginGlobalPointerTracking
  split <;> simp_all

/-- `selectElement` leaves the document untouched. -/
theorem selectElement_documentState (s : EditorState) (elementId : String) (additive : Bool) :
    (selectElement s elementId additive).documentState = s.documentState := rfl

/-- `selectElement` leaves the tracking flag untouched. -/
theorem selectElement_isDragging (s : EditorState) (elementId : String) (additive : Bool) :
    (selectElement s elementId additive).isDragging = s.isDragging := rfl

/-- C3 counterexample: in the fixture state a move drag of `"a"` is active
(`isDragging = true`), yet a second primary-button pointer-down on element
`"b"` is not ignored — it replaces both the drag state (discarding the start
snapshot) and the selection. -/
theorem secondPointerDown_not_ignored :
    exDragActiveState.isDragging = true ∧
    (onElementPointerDown exDragActiveState 0 false (Option.some ⟨5, 35⟩) "b").dragState ≠
      exDragActiveState.dragState ∧
    (onElementPointerDown exDragActiveState 0 false (Option.some ⟨5, 35⟩) "b").selectedElementIds
      ≠ exDragActiveState.selectedElementIds := by
  refine ⟨rfl, ?_, ?_⟩ <;>
    simp [onElementPointerDown, selectElement, beginGlobalPointerTracking,
      exDragActiveState, exDoc3, exRectData, List.find?]

/-- C3 (amended): only the tracking session is mutually exclusive —
`beginGlobalPointerTracking` is a no-op while `isDragging` is set, so the
window listeners and pointer capture are acquired once per drag, an element
pointer-down never mutates the document, and the tracking flag stays set; but
the drag state and the selection are not protected (see the counterexample). -/
theorem pointerTracking_structurally_exclusive (s : EditorState) (button : ℕ)
    (shiftKey : Bool) (pointerMm? : Option PointMm) (elementId : String) :
    (s.isDragging = true → beginGlobalPointerTracking s = s) ∧
    (onElementPointerDown s button shiftKey pointerMm? elementId).documentState =
      s.documentState ∧
    (s.isDragging = true →
      (onElementPointerDown s button shiftKey pointerMm? elementId).isDragging = true) := by
  refine ⟨?_, ?_, ?_⟩
  · intro h
    unfold beginGlobalPointerTracking
    simp [h]
  · unfold onElementPointerDown
    repeat'
      first
        | rfl
        | split
        | simp [beginGlobalPointerTracking_documentState, selectElement_documentState]
  · intro h
    unfold onElementPointerDown
    repeat'
      first
        | exact h
        | split
        | simp [beginGlobalPointerTracking_isDragging, selectElement_isDragging, h]

/-- Witness for C3 (amended), at the drag-active fixture: tracking is not
re-acquired, the document is untouched, and the flag stays set. -/
theorem pointerTracking_structurally_exclusive_witness :
    beginGlobalPointerTracking exDragActiveState = exDragActiveState ∧
    (onElementPointerDown exDragActiveState 0 false (Option.some ⟨5, 35⟩) "b").documentState =
      exDragActiveState.documentState ∧
    (onElementPointerDown exDragActiveState 0 false (Option.some ⟨5, 35⟩) "b").isDragging =
      true := by
  obtain ⟨h1, h2, h3⟩ :=
    pointerTracking_structurally_exclusive exDragActiveState 0 false (Option.some ⟨5, 35⟩) "b"
  exact ⟨h1 rfl, h2, h3 rfl⟩

/-! ## Claim C6 -/

/-- The structural invariant claimed for the store: every table's column
widths are evenly redistributed across the table's width. -/
def TableColumnsEven (doc : LaymaDocument) : Prop :=
  ∀ el ∈ doc.elements, ∀ props, el.data = LaymaElementData.table props →
    ∀ col ∈ props.columns, col.widthMm = el.widthMm / (props.columns.length : ℚ)

/-- A table fixture whose column widths (30, 50) are not evenly distributed
over its 80mm width. -/
def exTableProps : LaymaTableProps :=
  { columns := [⟨30, .left⟩, ⟨50, .left⟩]
    header := [⟨"Header1", true⟩, ⟨"Header2", true⟩]
    rowTemplate := [⟨"#InvoiceLine_Field1#", false⟩, ⟨"#InvoiceLine_Field2#", false⟩]
    tableDataset := Option.none
    borderColor := "#cbd5e1", borderWidthMm := 3 / 10, headerBackground := "#f3f4f6" }

/-- The fixture table element (80mm wide). -/
def exTableEl : LaymaElement :=
  { id := "t", «section» := .body, xMm := 10, yMm := 40, widthMm := 80, heightMm := 30
    data := .table exTableProps }

/-- A host-supplied document holding the fixture table. -/
def exDocMirror : LaymaDocument :=
  { page := A4_PORTRAIT_PAGE, headerHeightMm := 25, footerHeightMm := 25
    elements := [exTableEl] }

/-- C6 counterexample: the document-mirror effect stores an externally
supplied document verbatim (`documentState.set`, not `applyDocument`), so
after mirroring `exDocMirror` the store still holds a table with column widths
(30, 50) over an 80mm width — the even-redistribution invariant does not hold
after that write. -/
theorem mirroredDocument_columns_not_normalized :
    mirrorDocumentIntoStore exDocMirror = exDocMirror ∧
    ¬ TableColumnsEven (mirrorDocumentIntoStore exDocMirror) := by
  refine ⟨rfl, ?_⟩
  intro h
  have h30 := h exTableEl (by simp [mirrorDocumentIntoStore, exDocMirror]) exTableProps rfl
    ⟨30, .left⟩ (by simp [exTableProps])
  rw [show exTableEl.widthMm = 80 from rfl,
    show exTableProps.columns.length = 2 from rfl] at h30
  norm_num at h30

/-- `normalizeElementTables` either passes a non-table element through or
renormalises a table's columns against the element width. -/
theorem normalizeElementTables_cases (el : LaymaElement) :
    ((∀ props, el.data ≠ LaymaElementData.table props) ∧ normalizeElementTables el = el) ∨
    (∃ p, el.data = LaymaElementData.table p ∧
      normalizeElementTables el =
        { el with data := (LaymaElementData.table
            { p with columns := normalizeTableColumns p.columns el.widthMm }) }) := by
  unfold normalizeElementTables
  cases h : el.data
  case table p => exact Or.inr ⟨p, rfl, rfl⟩
  all_goals exact Or.inl ⟨(by intro props hcontra; cases hcontra), rfl⟩

/-- C6 (amended): every commit through `applyDocument` re-derives the table
invariant — each column's width equals the table's width divided by the column
count (whether or not width or columns changed on this write), and for a
non-empty column list the widths sum exactly to the table width; the host
document mirror, in contrast, bypasses this normalisation (see the
counterexample). -/
theorem applyDocument_normalizes_tableColumns (doc : LaymaDocument) :
    TableColumnsEven (applyDocument doc) ∧
    (∀ el ∈ (applyDocument doc).elements, ∀ props,
      el.data = LaymaElementData.table props → props.columns ≠ [] →
        (props.columns.map (·.widthMm)).sum = el.widthMm) := by
  have hcase := normalizeElementTables_cases
  constructor
  · intro el hel props hdata col hcol
    rw [show (applyDocument doc).elements = doc.elements.map normalizeElementTables from rfl,
      List.mem_map] at hel
    obtain ⟨el0, -, rfl⟩ := hel
    rcases hcase el0 with ⟨hnt, heq⟩ | ⟨p, hp, heq⟩
    · rw [heq] at hdata
      exact absurd hdata (hnt props)
    · rw [heq] at hdata
      rw [heq]
      simp only [LaymaElementData.table.injEq] at hdata
      subst hdata
      simp only at hcol ⊢
      unfold normalizeTableColumns at hcol ⊢
      split at hcol
      · cases hcol
      · rename_i hne
        simp only [List.mem_map] at hcol
        obtain ⟨c0, -, rfl⟩ := hcol
        rw [List.isEmpty_iff] at hne
        simp [normalizeTableColumns, hne, List.length_map]
  · intro el hel props hdata hne
    rw [show (applyDocument doc).elements = doc.elements.map normalizeElementTables from rfl,
      List.mem_map] at hel
    obtain ⟨el0, -, rfl⟩ := hel
    rcases hcase el0 with ⟨hnt, heq⟩ | ⟨p, hp, heq⟩
    · rw [heq] at hdata
      exact absurd hdata (hnt props)
    · rw [heq] at hdata ⊢
      simp only [LaymaElementData.table.injEq] at hdata
      subst hdata
      simp only at hne ⊢
      unfold normalizeTableColumns at hne ⊢
      split at hne
      · simp_all
      · rename_i hempty
        have hlen : p.columns.length ≠ 0 := by
          simpa [List.isEmpty_iff_length_eq_zero] using hempty
        have hlenq : ((p.columns.length : ℚ)) ≠ 0 := by
          exact_mod_cast hlen
        rw [if_neg hempty]
        simp only [List.map_map]
        have hconst : ((fun (x : LaymaTableColumn) => x.widthMm) ∘ fun (col : LaymaTableColumn) =>
            { col with widthMm := el0.widthMm / (p.columns.length : ℚ) }) =
            fun (_ : LaymaTableColumn) => el0.widthMm / (p.columns.length : ℚ) := rfl
        rw [hconst, List.map_const', List.sum_replicate, nsmul_eq_mul]
        field_simp

/-- Witness for C6 (amended): committing the mirror fixture through
`applyDocument` rewrites the (30, 50) columns to (40, 40), which satisfy the
invariant and sum to the 80mm width. -/
theorem applyDocument_normalizes_tableColumns_witness :
    TableColumnsEven (applyDocument exDocMirror) ∧
    (applyDocument exDocMirror).elements.map
        (fun el => match el.data with
          | LaymaElementData.table p => p.columns.map (·.widthMm)
          | _ => []) = [[40, 40]] := by
  refine ⟨(applyDocument_normalizes_tableColumns exDocMirror).1, ?_⟩
  norm_num [applyDocument, normalizeElementTables, normalizeTableColumns,
    exDocMirror, exTableEl, exTableProps]

/-! ## Claim C9 -/

/-- The element fields a move must not touch: id, section, size, and the
`type` discriminant. -/
def elementKeyFields (el : LaymaElement) :
    String × LaymaSection × ℚ × ℚ × LaymaElementType :=
  (el.id, el.section, el.widthMm, el.heightMm, el.elemType)

/-- `res` is `orig` with only positions of `moved` elements changed: the
key fields agree index-wise (hence the order is unchanged), and every element
not in the moved set also keeps its exact position. -/
def FramePreserved (orig res : List LaymaElement) (moved : LaymaElement → Prop) : Prop :=
  res.map elementKeyFields = orig.map elementKeyFields ∧
  ∀ i el el', orig.get? i = Option.some el → res.get? i = Option.some el' →
    ¬ moved el → el'.xMm = el.xMm ∧ el'.yMm = el.yMm

/-- `normalizeElementTables` keeps every key field (it only rewrites a
table's column list). -/
theorem elementKeyFields_normalizeElementTables (el : LaymaElement) :
    elementKeyFields (normalizeElementTables el) = elementKeyFields el := by
  rcases normalizeElementTables_cases el with ⟨-, heq⟩ | ⟨p, hp, heq⟩
  · rw [heq]
  · rw [heq]
    simp [elementKeyFields, LaymaElement.elemType, hp]

/-- `normalizeElementTables` keeps positions. -/
theorem normalizeElementTables_pos (el : LaymaElement) :
    (normalizeElementTables el).xMm = el.xMm ∧ (normalizeElementTables el).yMm = el.yMm := by
  rcases normalizeElementTables_cases el with ⟨-, heq⟩ | ⟨p, hp, heq⟩ <;> rw [heq] <;>
    exact ⟨rfl, rfl⟩

/-- Frame preservation follows from the pointwise facts about the mapped
update function. -/
theorem framePreserved_of_map (orig : List LaymaElement) (f : LaymaElement → LaymaElement)
    (moved : LaymaElement → Prop)
    (hkey : ∀ el, elementKeyFields (f el) = elementKeyFields el)
    (hxy : ∀ el, ¬ moved el → (f el).xMm = el.xMm ∧ (f el).yMm = el.yMm) :
    FramePreserved orig (orig.map f) moved := by
  constructor
  · rw [List.map_map]
    exact List.map_congr_left fun el _ => hkey el
  · intro i el el' h1 h2 hm
    rw [List.get?_map, h1, Option.map_some'] at h2
    obtain rfl : f el = el' := by injection h2
    exact hxy el hm

/-- A list is trivially frame-preserved against itself. -/
theorem framePreserved_refl (l : List LaymaElement) (moved : LaymaElement → Prop) :
    FramePreserved l l moved := by
  refine ⟨rfl, ?_⟩
  intro i el el' h1 h2 _
  rw [h1] at h2
  obtain rfl : el = el' := by injection h2
  exact ⟨rfl, rfl⟩

/-- C9: every move-type commit — single move, multi-move, keyboard nudge —
changes only element positions: id, section, size and type of every element
are untouched, the element order is untouched, and elements outside the
moved/selected set keep their exact positions (tables may still get their
column list renormalised by the store, which touches none of these fields). -/
theorem moves_only_change_positions (cfg : EditorConfig) (doc : LaymaDocument)
    (dragM : DragStateMove) (dragMM : DragStateMultiMove) (pointerMm : PointMm)
    (ids : List String) (dxMm dyMm : ℚ) :
    FramePreserved doc.elements (applyMove cfg doc dragM pointerMm).elements
      (fun el => el.id = dragM.elementId) ∧
    FramePreserved doc.elements (applyMultiMove cfg doc dragMM pointerMm).elements
      (fun el => (dragMM.startPositions.lookup el.id).isSome = true) ∧
    FramePreserved doc.elements (moveSelectedBy cfg doc ids dxMm dyMm).elements
      (fun el => ids.contains el.id = true) := by
  refine ⟨?_, ?_, ?_⟩
  · rw [show (applyMove cfg doc dragM pointerMm).elements =
        (doc.elements.map (applyMoveElement cfg doc dragM pointerMm)).map
          normalizeElementTables from rfl, List.map_map]
    refine framePreserved_of_map _ _ _ (fun el => ?_) (fun el hm => ?_)
    · rw [Function.comp_apply, elementKeyFields_normalizeElementTables]
      unfold applyMoveElement
      split <;> rfl
    · rw [Function.comp_apply]
      have hstay : applyMoveElement cfg doc dragM pointerMm el = el := by
        unfold applyMoveElement
        rw [if_pos hm]
      rw [hstay]
      exact normalizeElementTables_pos el
  · rw [show (applyMultiMove cfg doc dragMM pointerMm).elements =
        (doc.elements.map (applyMultiMoveElement cfg doc dragMM pointerMm)).map
          normalizeElementTables from rfl, List.map_map]
    refine framePreserved_of_map _ _ _ (fun el => ?_) (fun el hm => ?_)
    · rw [Function.comp_apply, elementKeyFields_normalizeElementTables]
      unfold applyMultiMoveElement
      split <;> rfl
    · rw [Function.comp_apply]
      have hstay : applyMultiMoveElement cfg doc dragMM pointerMm el = el := by
        unfold applyMultiMoveElement
        split
        · rfl
        · rename_i start hstart
          rw [Option.isSome_iff_exists] at hm
          exact absurd ⟨start, hstart⟩ hm
      rw [hstay]
      exact normalizeElementTables_pos el
  · by_cases hids : ids.isEmpty = true
    · rw [show moveSelectedBy cfg doc ids dxMm dyMm = doc from by
        unfold moveSelectedBy; rw [if_pos hids]]
      exact framePreserved_refl doc.elements _
    · rw [show (moveSelectedBy cfg doc ids dxMm dyMm).elements =
          (doc.elements.map (moveSelectedByElement cfg doc ids dxMm dyMm)).map
            normalizeElementTables from by
        unfold moveSelectedBy; rw [if_neg hids]; rfl, List.map_map]
      refine framePreserved_of_map _ _ _ (fun el => ?_) (fun el hm => ?_)
      · rw [Function.comp_apply, elementKeyFields_normalizeElementTables]
        unfold moveSelectedByElement
        split <;> rfl
      · rw [Function.comp_apply]
        have hstay : moveSelectedByElement cfg doc ids dxMm dyMm el = el := by
          unfold moveSelectedByElement
          rw [if_pos]
          simpa using hm
        rw [hstay]
        exact normalizeElementTables_pos el

/-- Witness for C9: moving element `"a"` of the three-element fixture by the
pointer preserves the frame of all three elements (with `"a"` the only moved
element). -/
theorem moves_only_change_positions_witness :
    FramePreserved exDoc3.elements
      (applyMove defaultConfig exDoc3 ⟨"a", ⟨1, 30⟩, ⟨0, 30⟩⟩ ⟨5, 35⟩).elements
      (fun el => el.id = "a") :=
  (moves_only_change_positions defaultConfig exDoc3 ⟨"a", ⟨1, 30⟩, ⟨0, 30⟩⟩
    ⟨[], ⟨0, 0⟩, []⟩ ⟨5, 35⟩ [] 0 0).1

/-! ## Claim C2 -/

/-- An aspect-locked image payload. -/
def exImgProps : LaymaImageProps :=
  { dataUri := "", objectFit := .contain, opacity := 1, borderRadiusMm := 0
    aspectRatioLocked := true }

/-- A 4×2 aspect-locked image at `(20, 50)` in the body. -/
def exImg : LaymaElement :=
  { id := "img", «section» := .body, xMm := 20, yMm := 50, widthMm := 4, heightMm := 2
    data := .image exImgProps }

/-- A document holding only the fixture image. -/
def exDocImg : LaymaDocument :=
  { page := A4_PORTRAIT_PAGE, headerHeightMm := 25, footerHeightMm := 25
    elements := [exImg] }

/-- A south-east corner resize drag of the fixture image, captured at its
4×2 start box. -/
def exResizeDrag : DragStateResize :=
  { elementId := "img", handle := .se, startPointerMm := ⟨24, 52⟩
    startBoxMm := ⟨20, 50, 4, 2⟩ }

/-- On the fixture, the aspect-lock step proposes the box `(20, 50, 7, 7/2)`
for the pointer at `(27, 52)`. -/
theorem exResize_aspectBox :
    resizeAspectBox exDocImg exResizeDrag ⟨27, 52⟩ = ⟨20, 50, 7, 7 / 2⟩ := by
  unfold resizeAspectBox
  rw [show exDocImg.elements.find? (fun e => e.id = exResizeDrag.elementId)
    = Option.some exImg from rfl]
  norm_num [exImg, exImgProps, exResizeDrag, normalizeBoxMm,
    ResizeHandle.hasW, ResizeHandle.hasE, ResizeHandle.hasN, ResizeHandle.hasS,
    ResizeHandle.isCorner, ResizeHandle.isHorizontal]

/-- On the fixture, the page-clamped-and-snapped stage with the default
config is `(20, 50, 5, 5)`: the snap rewrote both sizes to the 5mm grid. -/
theorem exResize_pageClampedBox :
    resizePageClampedBox defaultConfig exDocImg exResizeDrag ⟨27, 52⟩ = ⟨20, 50, 5, 5⟩ := by
  unfold resizePageClampedBox
  rw [exResize_aspectBox]
  norm_num [snapBoxMm, snapMm, jsRound, defaultConfig, exDocImg, A4_PORTRAIT_PAGE]

/-- On the fixture, the committed resize box with the default config is
`(20, 50, 5, 5)`. -/
theorem exResize_committedBox :
    resizeCommittedBox defaultConfig exDocImg exResizeDrag ⟨27, 52⟩ = ⟨20, 50, 5, 5⟩ := by
  unfold resizeCommittedBox
  rw [exResize_pageClampedBox,
    show resizeTargetSection exDocImg exResizeDrag = LaymaSection.body from rfl]
  norm_num [sectionBoundsMm, sectionHeights, exDocImg, A4_PORTRAIT_PAGE]

set_option maxHeartbeats 800000 in
/-- C2 counterexample: with the default configuration (grid 5, snap enabled),
a south-east corner resize of the aspect-locked 4×2 image (start ratio
`h0/w0 = 1/2`) by pointer delta `(3, 0)` commits a 5×5 box — the grid snap
runs after the aspect step and destroys the ratio, so the committed
`height/width = 1 ≠ 1/2`. -/
theorem aspectLock_ratio_not_committed :
    exImgProps.aspectRatioLocked = true ∧
    exResizeDrag.handle.isCorner = true ∧
    (applyResize defaultConfig exDocImg exResizeDrag ⟨27, 52⟩).elements.map
      (fun el => (el.widthMm, el.heightMm)) = [(5, 5)] ∧
    ¬ ((5 : ℚ) / 5 = 2 / 4) := by
  refine ⟨rfl, rfl, ?_, by norm_num⟩
  unfold applyResize
  rw [exResize_committedBox]
  simp [applyDocument, normalizeElementTables, exDocImg, exImg, exImgProps, exResizeDrag]

/-- Dividing `w / q` by a non-zero `w` leaves `q⁻¹` (with the field's junk
division, no condition on `q` is needed). -/
theorem div_div_cancel_of_ne_zero (w q : ℚ) (hw : w ≠ 0) : w / q / w = q⁻¹ := by
  rw [div_div, mul_comm, ← div_div, div_self hw, one_div]

/-- C2 (amended): for an aspect-locked image resized by a corner or
horizontal handle, the box *proposed* by the aspect-lock step always satisfies
`height/width = h0/w0` with the ratio taken from the drag's start box (never
the live element); the *committed* box keeps that ratio exactly when the
page/section clamps and the grid snap leave the proposed box unchanged — in
particular with snapping enabled (the default) the committed ratio can differ
(see the counterexample). -/
theorem aspectLock_ratio_from_start_box (cfg : EditorConfig) (doc : LaymaDocument)
    (drag : DragStateResize) (pointerMm : PointMm) (el : LaymaElement)
    (props : LaymaImageProps)
    (hfind : doc.elements.find? (fun e => e.id = drag.elementId) = Option.some el)
    (hdata : el.data = LaymaElementData.image props)
    (hlock : props.aspectRatioLocked = true)
    (hhandle : drag.handle.isCorner = true ∨ drag.handle.isHorizontal = true)
    (hw0 : drag.startBoxMm.widthMm ≠ 0)
    (hh0 : drag.startBoxMm.heightMm ≠ 0) :
    (resizeAspectBox doc drag pointerMm).heightMm /
        (resizeAspectBox doc drag pointerMm).widthMm
      = drag.startBoxMm.heightMm / drag.startBoxMm.widthMm ∧
    (resizeCommittedBox cfg doc drag pointerMm = resizeAspectBox doc drag pointerMm →
      (resizeCommittedBox cfg doc drag pointerMm).heightMm /
          (resizeCommittedBox cfg doc drag pointerMm).widthMm
        = drag.startBoxMm.heightMm / drag.startBoxMm.widthMm) := by
  have hcond : (drag.handle.isCorner || drag.handle.isHorizontal) = true := by
    rcases hhandle with h | h <;> simp [h]
  have hmain : (resizeAspectBox doc drag pointerMm).heightMm /
      (resizeAspectBox doc drag pointerMm).widthMm
      = drag.startBoxMm.heightMm / drag.startBoxMm.widthMm := by
    unfold resizeAspectBox
    rw [hfind]
    simp only [hdata, hlock, hcond, if_true, reduceIte]
    rw [div_div_cancel_of_ne_zero _ _ (ne_of_gt (lt_of_lt_of_le one_pos (le_max_left _ _))),
      inv_div]
  exact ⟨hmain, fun h => by rw [h]; exact hmain⟩

/-- With snapping disabled, the fixture's corner resize by delta `(2, 0)`
proposes and commits exactly the aspect-derived box. -/
theorem exResize_noSnap_unclamped :
    resizeCommittedBox ⟨5, false⟩ exDocImg exResizeDrag ⟨26, 52⟩ =
      resizeAspectBox exDocImg exResizeDrag ⟨26, 52⟩ := by
  have haspect : resizeAspectBox exDocImg exResizeDrag ⟨26, 52⟩ = ⟨20, 50, 6, 3⟩ := by
    unfold resizeAspectBox
    rw [show exDocImg.elements.find? (fun e => e.id = exResizeDrag.elementId)
      = Option.some exImg from rfl]
    norm_num [exImg, exImgProps, exResizeDrag, normalizeBoxMm,
      ResizeHandle.hasW, ResizeHandle.hasE, ResizeHandle.hasN, ResizeHandle.hasS,
      ResizeHandle.isCorner, ResizeHandle.isHorizontal]
  have hpc : resizePageClampedBox ⟨5, false⟩ exDocImg exResizeDrag ⟨26, 52⟩ =
      ⟨20, 50, 6, 3⟩ := by
    unfold resizePageClampedBox
    rw [haspect]
    norm_num [exDocImg, A4_PORTRAIT_PAGE]
  unfold resizeCommittedBox
  rw [hpc, haspect,
    show resizeTargetSection exDocImg exResizeDrag = LaymaSection.body from rfl]
  norm_num [sectionBoundsMm, sectionHeights, exDocImg, A4_PORTRAIT_PAGE]

/-- Witness for C2 (amended): with snapping disabled, the same corner resize
by delta `(2, 0)` commits the box `(20, 50, 6, 3)` whose ratio is exactly
`h0/w0 = 2/4`. -/
theorem aspectLock_ratio_from_start_box_witness :
    (resizeCommittedBox ⟨5, false⟩ exDocImg exResizeDrag ⟨26, 52⟩).heightMm /
      (resizeCommittedBox ⟨5, false⟩ exDocImg exResizeDrag ⟨26, 52⟩).widthMm = 2 / 4 := by
  have h := aspectLock_ratio_from_start_box ⟨5, false⟩ exDocImg exResizeDrag ⟨26, 52⟩
    exImg exImgProps rfl rfl rfl (Or.inl rfl) (by norm_num [exResizeDrag])
    (by norm_num [exResizeDrag])
  rw [show exResizeDrag.startBoxMm.heightMm = 2 from rfl,
    show exResizeDrag.startBoxMm.widthMm = 4 from rfl] at h
  exact h.2 exResize_noSnap_unclamped

/-! ## Claim C7 -/

/-- Swapping adjacent entries preserves the length. -/
theorem swapAdjacent_length {α : Type} (l : List α) (i : ℕ) :
    (swapAdjacent l i).length = l.length := by
  unfold swapAdjacent
  split <;> simp

/-- Index-wise description of `swapAdjacent` (in range). -/
theorem swapAdjacent_getElem? {α : Type} (l : List α) (i : ℕ) (hlt : i + 1 < l.length)
    (j : ℕ) :
    (swapAdjacent l i)[j]? =
      if j = i then l[i + 1]? else if j = i + 1 then l[i]? else l[j]? := by
  have hi : i < l.length := Nat.lt_of_succ_lt hlt
  unfold swapAdjacent
  rw [List.get?_eq_getElem?, List.get?_eq_getElem?,
    List.getElem?_eq_getElem hi, List.getElem?_eq_getElem hlt]
  simp only [List.getElem?_set, List.length_set]
  by_cases hji : j = i
  · subst hji
    rw [if_neg (by omega), if_pos rfl, if_pos hi, if_pos rfl]
  · by_cases hji1 : j = i + 1
    · subst hji1
      rw [if_pos rfl, if_pos hlt, if_neg (by omega), if_pos rfl]
    · rw [if_neg (by omega), if_neg (by omega), if_neg hji, if_neg hji1]

/-- Swapping the same adjacent pair twice is the identity (in range). -/
theorem swapAdjacent_involutive {α : Type} (l : List α) (i : ℕ) (hlt : i + 1 < l.length) :
    swapAdjacent (swapAdjacent l i) i = l := by
  have hlt' : i + 1 < (swapAdjacent l i).length := by rw [swapAdjacent_length]; exact hlt
  apply List.ext_getElem?
  intro j
  rw [swapAdjacent_getElem? _ i hlt' j]
  by_cases hji : j = i
  · subst hji
    rw [if_pos rfl, swapAdjacent_getElem? l j hlt (j + 1), if_neg (by omega), if_pos rfl]
  · by_cases hji1 : j = i + 1
    · subst hji1
      rw [if_neg (by omega), if_pos rfl, swapAdjacent_getElem? l i hlt i, if_pos rfl]
    · rw [if_neg hji, if_neg hji1, swapAdjacent_getElem? l i hlt j, if_neg hji, if_neg hji1]

/-- `swapAdjacent` commutes with `map`. -/
theorem swapAdjacent_map {α β : Type} (f : α → β) (l : List α) (i : ℕ) :
    (swapAdjacent l i).map f = swapAdjacent (l.map f) i := by
  unfold swapAdjacent
  simp only [List.get?_eq_getElem?, List.getElem?_map]
  cases h1 : l[i]? <;> cases h2 : l[i + 1]? <;> simp [h1, h2, List.map_set]

/-- `normalizeElementTables` keeps the element id. -/
theorem normalizeElementTables_id (el : LaymaElement) :
    (normalizeElementTables el).id = el.id := by
  rcases normalizeElementTables_cases el with ⟨-, heq⟩ | ⟨p, hp, heq⟩ <;> rw [heq]

/-- The store's normalisation pass keeps the id sequence. -/
theorem map_id_normalize (m : List LaymaElement) :
    (m.map normalizeElementTables).map (·.id) = m.map (·.id) := by
  rw [List.map_map]
  exact List.map_congr_left fun el _ => normalizeElementTables_id el

set_option maxHeartbeats 800000 in
/-- C7 counterexample: on the three-element fixture with the *last* element
`"c"` selected, `bringForward` is a no-op (as the claim itself notes), but the
following `sendBackward` still swaps `"c"` down — the round trip yields order
`[a, c, b]`, not the original `[a, b, c]`, so "bringForward followed by
sendBackward restores the original order" fails for a top-of-stack element. -/
theorem bringForward_top_roundtrip_fails :
    bringForward exDoc3 (Option.some "c") = exDoc3 ∧
    (sendBackward (bringForward exDoc3 (Option.some "c")) (Option.some "c")).elements.map
      (·.id) = ["a", "c", "b"] ∧
    exDoc3.elements.map (·.id) = ["a", "b", "c"] := by
  refine ⟨?_, ?_, rfl⟩ <;>
    simp [bringForward, sendBackward, reorderSelected, bringForwardStep, sendBackwardStep,
      swapAdjacent, applyDocument, normalizeElementTables, exDoc3, exRectData,
      List.findIdx?, List.find?]

/-- C7 (amended): under unique element ids, `bringForward` followed by
`sendBackward` on the primary selected element restores the original element
order whenever the element is not already last; when it is last (found at
index `i` with `i + 1 = length`), `bringForward` returns the document
unchanged — the same instance, so no commit or notification occurs — and the
round-trip guarantee does not apply (the subsequent `sendBackward` moves the
element down, see the counterexample). -/
theorem bringForward_sendBackward_roundtrip (doc : LaymaDocument) (sid : String) (i : ℕ)
    (hfound : doc.elements.findIdx? (fun el => el.id = sid) = Option.some i)
    (hnodup : (doc.elements.map (·.id)).Nodup) :
    (i + 1 < doc.elements.length →
      (sendBackward (bringForward doc (Option.some sid)) (Option.some sid)).elements.map
        (·.id) = doc.elements.map (·.id)) ∧
    (i + 1 = doc.elements.length → bringForward doc (Option.some sid) = doc) := by
  constructor
  · intro hlt
    have hi : i < doc.elements.length := Nat.lt_of_succ_lt hlt
    obtain ⟨hi', hpi, hbefore⟩ := List.findIdx?_eq_some_iff_getElem.mp hfound
    have hidi : doc.elements[i].id = sid := by simpa using hpi
    have hbefore' : ∀ j, j < i → ∀ (hjl : j < doc.elements.length),
        doc.elements[j].id ≠ sid := by
      intro j hj hjl
      simpa using hbefore j hj
    have hne : doc.elements[i].id ≠ doc.elements[i + 1].id := by
      intro heq
      have hmlen : i + 1 < (doc.elements.map (·.id)).length := by
        simpa using hlt
      have hmapi : (doc.elements.map (·.id))[i] = (doc.elements.map (·.id))[i + 1] := by
        simp only [List.getElem_map]
        exact heq
      have := (hnodup.getElem_inj_iff).mp hmapi
      omega
    have hstep : bringForwardStep doc.elements i = swapAdjacent doc.elements i := by
      unfold bringForwardStep
      rw [if_neg (by omega)]
    have hswap_i : (swapAdjacent doc.elements i)[i]? = Option.some doc.elements[i + 1] := by
      rw [swapAdjacent_getElem? _ i hlt i, if_pos rfl, List.getElem?_eq_getElem hlt]
    have hswap_i1 : (swapAdjacent doc.elements i)[i + 1]? = Option.some doc.elements[i] := by
      rw [swapAdjacent_getElem? _ i hlt (i + 1), if_neg (by omega), if_pos rfl,
        List.getElem?_eq_getElem hi]
    have hswap_other : ∀ j, j ≠ i → j ≠ i + 1 →
        (swapAdjacent doc.elements i)[j]? = doc.elements[j]? := by
      intro j h1 h2
      rw [swapAdjacent_getElem? _ i hlt j, if_neg h1, if_neg h2]
    have hchange : swapAdjacent doc.elements i ≠ doc.elements := by
      intro heq
      have h1 : (swapAdjacent doc.elements i)[i]? = Option.some doc.elements[i] := by
        rw [heq, List.getElem?_eq_getElem hi]
      rw [hswap_i] at h1
      exact hne (by rw [Option.some.inj h1])
    have hbf : bringForward doc (Option.some sid) =
        applyDocument { doc with elements := swapAdjacent doc.elements i } := by
      unfold bringForward reorderSelected
      dsimp only
      rw [hfound]
      dsimp only
      rw [hstep, if_neg hchange]
    have helems : (bringForward doc (Option.some sid)).elements =
        (swapAdjacent doc.elements i).map normalizeElementTables := by
      rw [hbf]
      rfl
    have hlen₁ : ((swapAdjacent doc.elements i).map normalizeElementTables).length =
        doc.elements.length := by
      rw [List.length_map, swapAdjacent_length]
    have hget₁ : ∀ j (h : j < doc.elements.length) (v : LaymaElement),
        (swapAdjacent doc.elements i)[j]? = Option.some v →
        ∀ (hj : j < ((swapAdjacent doc.elements i).map normalizeElementTables).length),
          ((swapAdjacent doc.elements i).map normalizeElementTables)[j] =
            normalizeElementTables v := by
      intro j h v hv hj
      have h1 : ((swapAdjacent doc.elements i).map normalizeElementTables)[j]? =
          Option.some (normalizeElementTables v) := by
        rw [List.getElem?_map, hv, Option.map_some']
      rw [List.getElem?_eq_getElem hj] at h1
      exact Option.some.inj h1
    have hfind₁ : ((swapAdjacent doc.elements i).map normalizeElementTables).findIdx?
        (fun el => el.id = sid) = Option.some (i + 1) := by
      rw [List.findIdx?_eq_some_iff_getElem]
      refine ⟨by omega, ?_, ?_⟩
      · have hg := hget₁ (i + 1) hlt doc.elements[i] hswap_i1 (by omega)
        simp [hg, normalizeElementTables_id, hidi]
      · intro j hj
        have hjlen : j < doc.elements.length := by omega
        by_cases hji : j = i
        · subst hji
          have hg := hget₁ j hjlen doc.elements[j + 1] hswap_i (by omega)
          simp only [hg, normalizeElementTables_id, decide_eq_true_eq]
          intro hcon
          exact hne (by rw [hidi, hcon])
        · have hj' : j < i := by omega
          have hg := hget₁ j hjlen doc.elements[j]
            (by rw [hswap_other j hji (by omega), List.getElem?_eq_getElem hjlen]) (by omega)
          simp only [hg, normalizeElementTables_id, decide_eq_true_eq]
          exact hbefore' j hj' hjlen
    have hlt₁ : i + 1 < ((swapAdjacent doc.elements i).map normalizeElementTables).length := by
      omega
    have hstep₂ : sendBackwardStep
        ((swapAdjacent doc.elements i).map normalizeElementTables) (i + 1) =
        swapAdjacent ((swapAdjacent doc.elements i).map normalizeElementTables) i := by
      unfold sendBackwardStep
      rw [if_neg (by omega), Nat.add_sub_cancel]
    have hchange₂ : swapAdjacent ((swapAdjacent doc.elements i).map normalizeElementTables) i ≠
        (swapAdjacent doc.elements i).map normalizeElementTables := by
      intro heq
      have h1 : (swapAdjacent ((swapAdjacent doc.elements i).map normalizeElementTables) i)[i]?
          = Option.some (normalizeElementTables doc.elements[i]) := by
        rw [swapAdjacent_getElem? _ i hlt₁ i, if_pos rfl, List.getElem?_map, hswap_i1,
          Option.map_some']
      have h2 : ((swapAdjacent doc.elements i).map normalizeElementTables)[i]? =
          Option.some (normalizeElementTables doc.elements[i + 1]) := by
        rw [List.getElem?_map, hswap_i, Option.map_some']
      rw [heq, h2] at h1
      have h3 := Option.some.inj h1
      have h4 : doc.elements[i + 1].id = doc.elements[i].id := by
        rw [← normalizeElementTables_id, h3, normalizeElementTables_id]
      exact hne h4.symm
    have hsb : sendBackward (bringForward doc (Option.some sid)) (Option.some sid) =
        applyDocument { bringForward doc (Option.some sid) with
          elements := swapAdjacent
            ((swapAdjacent doc.elements i).map normalizeElementTables) i } := by
      unfold sendBackward reorderSelected
      dsimp only
      rw [helems, hfind₁]
      dsimp only
      rw [hstep₂, if_neg hchange₂]
    rw [hsb]
    rw [show (applyDocument { bringForward doc (Option.some sid) with
        elements := swapAdjacent
          ((swapAdjacent doc.elements i).map normalizeElementTables) i }).elements =
        (swapAdjacent ((swapAdjacent doc.elements i).map normalizeElementTables) i).map
          normalizeElementTables from rfl]
    rw [map_id_normalize, swapAdjacent_map, map_id_normalize, swapAdjacent_map]
    exact swapAdjacent_involutive _ _ (by rw [List.length_map]; exact hlt)
  · intro hlen
    unfold bringForward reorderSelected
    dsimp only
    rw [hfound]
    have hstep : bringForwardStep doc.elements i = doc.elements := by
      unfold bringForwardStep
      rw [if_pos (by omega)]
    simp [hstep]

/-- Witness for C7 (amended): on the three-element fixture with `"b"`
selected (index 1, not last), the round trip restores the id order
`[a, b, c]`. -/
theorem bringForward_sendBackward_roundtrip_witness :
    (sendBackward (bringForward exDoc3 (Option.some "b")) (Option.some "b")).elements.map
      (·.id) = exDoc3.elements.map (·.id) :=
  (bringForward_sendBackward_roundtrip exDoc3 "b" 1 (by decide) (by decide)).1 (by decide)

/-! ## Claim C1 -/

/-- Bounds of the shared position clamp of `applyMove`, `applyMultiMove` and
`moveSelectedBy`:
`x' = max 0 (min (max 0 (pageW - w)) nx)`, `y' = max top (min (max top (bot - h)) ny)`. -/
theorem moveClamp_bounds (top bot pageW w h nx ny : ℚ) :
    (0 ≤ max 0 (min (max 0 (pageW - w)) nx)) ∧
    (max 0 (min (max 0 (pageW - w)) nx) ≤ max 0 (pageW - w)) ∧
    (top ≤ max top (min (max top (bot - h)) ny)) ∧
    (max top (min (max top (bot - h)) ny) ≤ max top (bot - h)) ∧
    (1 ≤ w → w ≤ pageW → 1 ≤ h → h ≤ bot - top →
      max 0 (min (max 0 (pageW - w)) nx) + w ≤ pageW ∧
      max top (min (max top (bot - h)) ny) + h ≤ bot) := by
  refine ⟨le_max_left _ _, max_le (le_max_left _ _) (min_le_left _ _),
    le_max_left _ _, max_le (le_max_left _ _) (min_le_left _ _), ?_⟩
  intro h1 h2 h3 h4
  constructor
  · have hub : max 0 (min (max 0 (pageW - w)) nx) ≤ max 0 (pageW - w) :=
      max_le (le_max_left _ _) (min_le_left _ _)
    linarith [hub, max_eq_right (show (0 : ℚ) ≤ pageW - w by linarith)]
  · have hub : max top (min (max top (bot - h)) ny) ≤ max top (bot - h) :=
      max_le (le_max_left _ _) (min_le_left _ _)
    linarith [hub, max_eq_right (show top ≤ bot - h by linarith)]

/-- Bounds of the final section clamp of `applyResize`/`applyCreate`:
`y = max top (min (bot - 1) sy)`, `h = max 1 (min (bot - y) sh)`. -/
theorem sectionClamp_bounds (top bot sy sh : ℚ) :
    top ≤ max top (min (bot - 1) sy) ∧
    1 ≤ max 1 (min (bot - max top (min (bot - 1) sy)) sh) ∧
    (top + 1 ≤ bot →
      max top (min (bot - 1) sy) +
        max 1 (min (bot - max top (min (bot - 1) sy)) sh) ≤ bot) := by
  refine ⟨le_max_left _ _, le_max_left _ _, ?_⟩
  intro h
  have hy1 : max top (min (bot - 1) sy) ≤ bot - 1 :=
    max_le (by linarith) (min_le_left _ _)
  have h2 : max 1 (min (bot - max top (min (bot - 1) sy)) sh) ≤
      bot - max top (min (bot - 1) sy) :=
    max_le (by linarith) (min_le_left _ _)
  linarith

/-- Snapping a non-negative value yields a non-negative value. -/
theorem snapMm_nonneg (v g : ℚ) (hv : 0 ≤ v) : 0 ≤ snapMm v g := by
  unfold snapMm
  split
  · exact hv
  · rename_i hg
    push_neg at hg
    have h1 : (0 : ℚ) ≤ (jsRound (v / g) : ℚ) := by
      unfold jsRound
      have h2 : (0 : ℤ) ≤ ⌊v / g + 1 / 2⌋ := by
        apply Int.floor_nonneg.mpr
        have : 0 ≤ v / g := div_nonneg hv (le_of_lt hg)
        linarith
      exact_mod_cast h2
    exact mul_nonneg h1 (le_of_lt hg)

/-- `normalizeElementTables` keeps the size fields. -/
theorem normalizeElementTables_size (el : LaymaElement) :
    (normalizeElementTables el).widthMm = el.widthMm ∧
    (normalizeElementTables el).heightMm = el.heightMm := by
  rcases normalizeElementTables_cases el with ⟨-, heq⟩ | ⟨p, hp, heq⟩ <;> rw [heq] <;>
    exact ⟨rfl, rfl⟩

/-- The committed element of a map-then-normalise commit carries exactly the
box of the per-element update. -/
theorem committed_box_via_map (doc : LaymaDocument) (f : LaymaElement → LaymaElement)
    (i : ℕ) (el el' : LaymaElement)
    (h1 : doc.elements.get? i = Option.some el)
    (h2 : ((doc.elements.map f).map normalizeElementTables).get? i = Option.some el') :
    el'.xMm = (f el).xMm ∧ el'.yMm = (f el).yMm ∧
    el'.widthMm = (f el).widthMm ∧ el'.heightMm = (f el).heightMm := by
  have hsome : Option.some (normalizeElementTables (f el)) = Option.some el' := by
    rw [← h2, List.get?_eq_getElem?, List.getElem?_map, List.getElem?_map]
    rw [List.get?_eq_getElem?] at h1
    rw [h1, Option.map_some', Option.map_some']
  obtain rfl := Option.some.inj hsome
  obtain ⟨hx, hy⟩ := normalizeElementTables_pos (f el)
  obtain ⟨hw, hh⟩ := normalizeElementTables_size (f el)
  exact ⟨hx, hy, hw, hh⟩

/-- The update of `applyMove` on the dragged element is the standard position
clamp for some proposed position `(nx, ny)`. -/
theorem applyMoveElement_spec (cfg : EditorConfig) (doc : LaymaDocument)
    (drag : DragStateMove) (pointerMm : PointMm) (el : LaymaElement)
    (hid : el.id = drag.elementId) :
    ∃ nx ny,
      applyMoveElement cfg doc drag pointerMm el =
        { el with
          xMm := max 0 (min (max 0 (doc.page.widthMm - el.widthMm)) nx)
          yMm := max (sectionBoundsMm doc el.section).topMm
            (min (max (sectionBoundsMm doc el.section).topMm
              ((sectionBoundsMm doc el.section).bottomMm - el.heightMm)) ny) } := by
  unfold applyMoveElement
  rw [if_neg (by simp [hid])]
  exact ⟨_, _, rfl⟩

/-- The update of `applyMultiMove` on an element with a captured start
position is the standard position clamp. -/
theorem applyMultiMoveElement_spec (cfg : EditorConfig) (doc : LaymaDocument)
    (drag : DragStateMultiMove) (pointerMm : PointMm) (el : LaymaElement)
    (start : PointMm) (hstart : drag.startPositions.lookup el.id = Option.some start) :
    ∃ nx ny,
      applyMultiMoveElement cfg doc drag pointerMm el =
        { el with
          xMm := max 0 (min (max 0 (doc.page.widthMm - el.widthMm)) nx)
          yMm := max (sectionBoundsMm doc el.section).topMm
            (min (max (sectionBoundsMm doc el.section).topMm
              ((sectionBoundsMm doc el.section).bottomMm - el.heightMm)) ny) } := by
  unfold applyMultiMoveElement
  rw [hstart]
  exact ⟨_, _, rfl⟩

/-- The update of `moveSelectedBy` on a selected element is the standard
position clamp. -/
theorem moveSelectedByElement_spec (cfg : EditorConfig) (doc : LaymaDocument)
    (ids : List String) (dxMm dyMm : ℚ) (el : LaymaElement)
    (hin : ids.contains el.id = true) :
    ∃ nx ny,
      moveSelectedByElement cfg doc ids dxMm dyMm el =
        { el with
          xMm := max 0 (min (max 0 (doc.page.widthMm - el.widthMm)) nx)
          yMm := max (sectionBoundsMm doc el.section).topMm
            (min (max (sectionBoundsMm doc el.section).topMm
              ((sectionBoundsMm doc el.section).bottomMm - el.heightMm)) ny) } := by
  unfold moveSelectedByElement
  rw [if_neg (not_not_intro hin)]
  exact ⟨_, _, rfl⟩

/-- A create drag seeded at `(10.3, 30.2)` (a 1×1 rect already inserted). -/
def exCreateDoc : LaymaDocument :=
  { page := A4_PORTRAIT_PAGE, headerHeightMm := 25, footerHeightMm := 25
    elements := [{ id := "new", «section» := .body, xMm := 103 / 10, yMm := 302 / 10
                   widthMm := 1, heightMm := 1, data := exRectData }] }

/-- The create drag state for the fixture. -/
def exCreateDrag : DragStateCreate :=
  { tool := .rect, elementId := "new", startPointerMm := ⟨103 / 10, 302 / 10⟩ }

set_option maxHeartbeats 1600000 in
/-- On the fixture, a click-release (no pointer movement) commits the box
`(10, 30, 0, 1)` with the default config: the 1mm-wide clamped box snaps to
width 0 and nothing re-clamps the width afterwards. -/
theorem exCreate_committedBox :
    createCommittedBox defaultConfig exCreateDoc .body exCreateDrag ⟨103 / 10, 302 / 10⟩ =
      ⟨10, 30, 0, 1⟩ := by
  have hsb : createSnappedBox defaultConfig exCreateDoc exCreateDrag
      ⟨103 / 10, 302 / 10⟩ = ⟨10, 30, 0, 0⟩ := by
    unfold createSnappedBox
    norm_num [normalizeBoxMm, snapBoxMm, snapMm, jsRound, defaultConfig, exCreateDoc,
      exCreateDrag, A4_PORTRAIT_PAGE]
  unfold createCommittedBox
  rw [hsb,
    show createTargetSection exCreateDoc .body exCreateDrag = LaymaSection.body from rfl]
  norm_num [sectionBoundsMm, sectionHeights, exCreateDoc, A4_PORTRAIT_PAGE]

set_option maxHeartbeats 800000 in
/-- C1 counterexample: with the default configuration (grid 5, snap enabled),
releasing a create drag at its start point `(10.3, 30.2)` commits the
element's box as `(10, 30, 0, 1)` — the committed `widthMm = 0` violates the
claimed minimum-size floor `widthMm ≥ 1` (the grid snap runs after the
create clamp and is not re-clamped for `x`/`width`). -/
theorem createSnap_commits_zero_width :
    defaultConfig.snapEnabled = true ∧ defaultConfig.gridSizeMm = 5 ∧
    (applyCreate defaultConfig exCreateDoc .body exCreateDrag
      ⟨103 / 10, 302 / 10⟩).elements.map
        (fun el => (el.xMm, el.yMm, el.widthMm, el.heightMm)) = [(10, 30, 0, 1)] ∧
    ¬ ((1 : ℚ) ≤ 0) := by
  refine ⟨rfl, rfl, ?_, by norm_num⟩
  unfold applyCreate
  rw [exCreate_committedBox]
  simp [applyDocument, normalizeElementTables, exCreateDoc, exRectData, exCreateDrag]

/-- What a move-type commit guarantees for the moved element: size preserved,
position clamped into `[0, max 0 (pageW − w)] × [top, max top (bottom − h)]`;
hence fully in bounds with the 1mm floor whenever the element's own size
already satisfies `1 ≤ w ≤ pageW` and `1 ≤ h ≤ bottom − top`. -/
def MoveCommitClamped (doc : LaymaDocument) (el el' : LaymaElement) : Prop :=
  el'.widthMm = el.widthMm ∧ el'.heightMm = el.heightMm ∧
  0 ≤ el'.xMm ∧ el'.xMm ≤ max 0 (doc.page.widthMm - el.widthMm) ∧
  (sectionBoundsMm doc el.section).topMm ≤ el'.yMm ∧
  el'.yMm ≤ max (sectionBoundsMm doc el.section).topMm
    ((sectionBoundsMm doc el.section).bottomMm - el.heightMm) ∧
  (1 ≤ el.widthMm → el.widthMm ≤ doc.page.widthMm → 1 ≤ el.heightMm →
    el.heightMm ≤ (sectionBoundsMm doc el.section).bottomMm -
      (sectionBoundsMm doc el.section).topMm →
    el'.xMm + el'.widthMm ≤ doc.page.widthMm ∧
    el'.yMm + el'.heightMm ≤ (sectionBoundsMm doc el.section).bottomMm ∧
    1 ≤ el'.widthMm ∧ 1 ≤ el'.heightMm)

/-- `MoveCommitClamped` follows once the committed element carries the box of
the standard position-clamp update. -/
theorem moveCommitClamped_intro (doc : LaymaDocument) (el el' : LaymaElement)
    (u : LaymaElement)
    (hx : el'.xMm = u.xMm) (hy : el'.yMm = u.yMm)
    (hw : el'.widthMm = u.widthMm) (hh : el'.heightMm = u.heightMm)
    (hspec : ∃ nx ny,
      u = { el with
        xMm := max 0 (min (max 0 (doc.page.widthMm - el.widthMm)) nx)
        yMm := max (sectionBoundsMm doc el.section).topMm
          (min (max (sectionBoundsMm doc el.section).topMm
            ((sectionBoundsMm doc el.section).bottomMm - el.heightMm)) ny) }) :
    MoveCommitClamped doc el el' := by
  obtain ⟨nx, ny, rfl⟩ := hspec
  dsimp only at hx hy hw hh
  obtain ⟨c1, c2, c3, c4, c5⟩ := moveClamp_bounds (sectionBoundsMm doc el.section).topMm
    (sectionBoundsMm doc el.section).bottomMm doc.page.widthMm el.widthMm el.heightMm nx ny
  refine ⟨hw, hh, ?_, ?_, ?_, ?_, ?_⟩
  · rw [hx]; exact c1
  · rw [hx]; exact c2
  · rw [hy]; exact c3
  · rw [hy]; exact c4
  · intro h1 h2 h3 h4
    obtain ⟨d1, d2⟩ := c5 h1 h2 h3 h4
    refine ⟨?_, ?_, ?_, ?_⟩
    · rw [hx, hw]; exact d1
    · rw [hy, hh]; exact d2
    · rw [hw]; exact h1
    · rw [hh]; exact h3

/-- Horizontal bounds of the page-clamped resize stage. -/
theorem resizePageClampedBox_xw (cfg : EditorConfig) (doc : LaymaDocument)
    (drag : DragStateResize) (pointerMm : PointMm) :
    (cfg.snapEnabled = false →
      0 ≤ (resizePageClampedBox cfg doc drag pointerMm).xMm ∧
      (resizePageClampedBox cfg doc drag pointerMm).xMm +
        (resizePageClampedBox cfg doc drag pointerMm).widthMm ≤ doc.page.widthMm ∧
      (1 ≤ doc.page.widthMm → 1 ≤ (resizeAspectBox doc drag pointerMm).widthMm →
        1 ≤ (resizePageClampedBox cfg doc drag pointerMm).widthMm)) ∧
    (cfg.snapEnabled = true → 1 ≤ doc.page.widthMm →
      0 ≤ (resizePageClampedBox cfg doc drag pointerMm).xMm ∧
      (resizePageClampedBox cfg doc drag pointerMm).xMm ≤ doc.page.widthMm - 1 ∧
      1 ≤ (resizePageClampedBox cfg doc drag pointerMm).widthMm ∧
      (resizePageClampedBox cfg doc drag pointerMm).widthMm ≤ doc.page.widthMm) := by
  constructor
  · intro hsnap
    unfold resizePageClampedBox
    simp only [hsnap, Bool.false_eq_true, if_false]
    refine ⟨le_max_left _ _, ?_, ?_⟩
    · show max 0 (min (doc.page.widthMm - (resizeAspectBox doc drag pointerMm).widthMm)
          (resizeAspectBox doc drag pointerMm).xMm) +
        min doc.page.widthMm (resizeAspectBox doc drag pointerMm).widthMm ≤ doc.page.widthMm
      rcases le_total (resizeAspectBox doc drag pointerMm).widthMm doc.page.widthMm with
        hle | hle
      · have h1 : max 0 (min (doc.page.widthMm - (resizeAspectBox doc drag pointerMm).widthMm)
            (resizeAspectBox doc drag pointerMm).xMm) ≤
            doc.page.widthMm - (resizeAspectBox doc drag pointerMm).widthMm :=
          max_le (by linarith) (min_le_left _ _)
        have h2 : min doc.page.widthMm (resizeAspectBox doc drag pointerMm).widthMm =
            (resizeAspectBox doc drag pointerMm).widthMm := min_eq_right hle
        linarith
      · have h1 : min (doc.page.widthMm - (resizeAspectBox doc drag pointerMm).widthMm)
            (resizeAspectBox doc drag pointerMm).xMm ≤ 0 :=
          le_trans (min_le_left _ _) (by linarith)
        have h2 : max 0 (min (doc.page.widthMm - (resizeAspectBox doc drag pointerMm).widthMm)
            (resizeAspectBox doc drag pointerMm).xMm) = 0 := max_eq_left h1
        have h3 : min doc.page.widthMm (resizeAspectBox doc drag pointerMm).widthMm =
            doc.page.widthMm := min_eq_left hle
        linarith
    · intro hpw haw
      exact le_min hpw haw
  · intro hsnap hpw
    unfold resizePageClampedBox
    simp only [hsnap, if_true]
    exact ⟨le_max_left _ _, max_le (by linarith) (min_le_left _ _),
      le_max_left _ _, max_le hpw (min_le_left _ _)⟩

/-- Bounds of the committed resize box: height/vertical guarantees hold
unconditionally (the section clamp runs last); the horizontal guarantees
depend on whether the snap re-clamp ran. -/
theorem resizeCommittedBox_bounds (cfg : EditorConfig) (doc : LaymaDocument)
    (drag : DragStateResize) (pointerMm : PointMm) :
    1 ≤ (resizeCommittedBox cfg doc drag pointerMm).heightMm ∧
    (sectionBoundsMm doc (resizeTargetSection doc drag)).topMm ≤
      (resizeCommittedBox cfg doc drag pointerMm).yMm ∧
    ((sectionBoundsMm doc (resizeTargetSection doc drag)).topMm + 1 ≤
        (sectionBoundsMm doc (resizeTargetSection doc drag)).bottomMm →
      (resizeCommittedBox cfg doc drag pointerMm).yMm +
        (resizeCommittedBox cfg doc drag pointerMm).heightMm ≤
        (sectionBoundsMm doc (resizeTargetSection doc drag)).bottomMm) ∧
    (cfg.snapEnabled = false →
      0 ≤ (resizeCommittedBox cfg doc drag pointerMm).xMm ∧
      (resizeCommittedBox cfg doc drag pointerMm).xMm +
        (resizeCommittedBox cfg doc drag pointerMm).widthMm ≤ doc.page.widthMm ∧
      (1 ≤ doc.page.widthMm → 1 ≤ (resizeAspectBox doc drag pointerMm).widthMm →
        1 ≤ (resizeCommittedBox cfg doc drag pointerMm).widthMm)) ∧
    (cfg.snapEnabled = true → 1 ≤ doc.page.widthMm →
      0 ≤ (resizeCommittedBox cfg doc drag pointerMm).xMm ∧
      (resizeCommittedBox cfg doc drag pointerMm).xMm ≤ doc.page.widthMm - 1 ∧
      1 ≤ (resizeCommittedBox cfg doc drag pointerMm).widthMm ∧
      (resizeCommittedBox cfg doc drag pointerMm).widthMm ≤ doc.page.widthMm) := by
  have hx : (resizeCommittedBox cfg doc drag pointerMm).xMm =
      (resizePageClampedBox cfg doc drag pointerMm).xMm := rfl
  have hw : (resizeCommittedBox cfg doc drag pointerMm).widthMm =
      (resizePageClampedBox cfg doc drag pointerMm).widthMm := rfl
  obtain ⟨hxw0, hxw1⟩ := resizePageClampedBox_xw cfg doc drag pointerMm
  obtain ⟨s1, s2, s3⟩ := sectionClamp_bounds
    (sectionBoundsMm doc (resizeTargetSection doc drag)).topMm
    (sectionBoundsMm doc (resizeTargetSection doc drag)).bottomMm
    (resizePageClampedBox cfg doc drag pointerMm).yMm
    (resizePageClampedBox cfg doc drag pointerMm).heightMm
  exact ⟨s2, s1, s3, fun h => by rw [hx, hw]; exact hxw0 h,
    fun h hpw => by rw [hx, hw]; exact hxw1 h hpw⟩

/-- Non-negativity and no-snap bounds of the pre-section create stage. -/
theorem createSnappedBox_xw (cfg : EditorConfig) (doc : LaymaDocument)
    (drag : DragStateCreate) (pointerMm : PointMm) :
    0 ≤ (createSnappedBox cfg doc drag pointerMm).xMm ∧
    0 ≤ (createSnappedBox cfg doc drag pointerMm).widthMm ∧
    (cfg.snapEnabled = false →
      1 ≤ (createSnappedBox cfg doc drag pointerMm).widthMm ∧
      (createSnappedBox cfg doc drag pointerMm).widthMm ≤ max 1 doc.page.widthMm ∧
      (createSnappedBox cfg doc drag pointerMm).xMm ≤ max 0 (doc.page.widthMm - 1)) := by
  by_cases hsnap : cfg.snapEnabled = true
  · unfold createSnappedBox
    simp only [hsnap, if_true]
    unfold snapBoxMm
    refine ⟨snapMm_nonneg _ _ (le_max_left _ _), snapMm_nonneg _ _ ?_,
      by intro hcon; simp at hcon⟩
    exact le_trans zero_le_one (le_max_left _ _)
  · rw [Bool.not_eq_true] at hsnap
    unfold createSnappedBox
    simp only [hsnap, Bool.false_eq_true, if_false]
    refine ⟨le_max_left _ _, le_trans zero_le_one (le_max_left _ _), ?_⟩
    rintro -
    exact ⟨le_max_left _ _,
      max_le (le_max_left _ _) (le_trans (min_le_left _ _) (le_max_right _ _)),
      max_le (le_max_left _ _) (le_trans (min_le_left _ _) (le_max_right _ _))⟩

/-- Bounds of the committed create box: vertical guarantees always hold; the
horizontal ones are only non-negativity unless snapping is off. -/
theorem createCommittedBox_bounds (cfg : EditorConfig) (doc : LaymaDocument)
    (activeSec : LaymaSection) (drag : DragStateCreate) (pointerMm : PointMm) :
    (sectionBoundsMm doc (createTargetSection doc activeSec drag)).topMm ≤
      (createCommittedBox cfg doc activeSec drag pointerMm).yMm ∧
    1 ≤ (createCommittedBox cfg doc activeSec drag pointerMm).heightMm ∧
    ((sectionBoundsMm doc (createTargetSection doc activeSec drag)).topMm + 1 ≤
        (sectionBoundsMm doc (createTargetSection doc activeSec drag)).bottomMm →
      (createCommittedBox cfg doc activeSec drag pointerMm).yMm +
        (createCommittedBox cfg doc activeSec drag pointerMm).heightMm ≤
        (sectionBoundsMm doc (createTargetSection doc activeSec drag)).bottomMm) ∧
    0 ≤ (createCommittedBox cfg doc activeSec drag pointerMm).xMm ∧
    0 ≤ (createCommittedBox cfg doc activeSec drag pointerMm).widthMm ∧
    (cfg.snapEnabled = false →
      1 ≤ (createCommittedBox cfg doc activeSec drag pointerMm).widthMm ∧
      (createCommittedBox cfg doc activeSec drag pointerMm).widthMm ≤
        max 1 doc.page.widthMm ∧
      (createCommittedBox cfg doc activeSec drag pointerMm).xMm ≤
        max 0 (doc.page.widthMm - 1)) := by
  have hx : (createCommittedBox cfg doc activeSec drag pointerMm).xMm =
      (createSnappedBox cfg doc drag pointerMm).xMm := rfl
  have hw : (createCommittedBox cfg doc activeSec drag pointerMm).widthMm =
      (createSnappedBox cfg doc drag pointerMm).widthMm := rfl
  obtain ⟨c1, c2, c3⟩ := createSnappedBox_xw cfg doc drag pointerMm
  obtain ⟨s1, s2, s3⟩ := sectionClamp_bounds
    (sectionBoundsMm doc (createTargetSection doc activeSec drag)).topMm
    (sectionBoundsMm doc (createTargetSection doc activeSec drag)).bottomMm
    (createSnappedBox cfg doc drag pointerMm).yMm
    (createSnappedBox cfg doc drag pointerMm).heightMm
  exact ⟨s1, s2, s3, by rw [hx]; exact c1, by rw [hw]; exact c2,
    fun h => by rw [hx, hw]; exact c3 h⟩

set_option maxHeartbeats 800000 in
/-- C1 (amended): what each drag outcome really guarantees for the dragged
element's committed box.  Move, multi-move and nudge preserve the element's
size and clamp its position, so the committed box is fully inside the page and
the element's section with the 1mm floor exactly when the element's own size
already fits (`1 ≤ w ≤ pageW`, `1 ≤ h ≤ bottom − top`); an oversized or
sub-1mm element stays out of spec.  A resize always commits `h ≥ 1`,
`y ≥ top`, and `y + h ≤ bottom` when the section is at least 1mm tall; with
snapping disabled it also commits `0 ≤ x` and `x + w ≤ pageW`, with `w ≥ 1`
when the aspect step proposed at least 1mm of width; with snapping enabled it
only commits `x ∈ [0, pageW − 1]` and `w ∈ [1, pageW]` — `x + w` can exceed
the page.  A create always commits the vertical guarantees and non-negative
`x`/`w`; only with snapping disabled does it guarantee `w ≥ 1` (the
counterexample shows the default snap can commit width 0), and even then
`x + w` can exceed the page. -/
theorem dragCommit_bounds (cfg : EditorConfig) (doc : LaymaDocument)
    (dragM : DragStateMove) (dragMM : DragStateMultiMove) (dragR : DragStateResize)
    (dragC : DragStateCreate) (ids : List String) (dxMm dyMm : ℚ)
    (activeSec : LaymaSection) (pointerMm : PointMm) :
    (∀ i el el', doc.elements.get? i = Option.some el →
      (applyMove cfg doc dragM pointerMm).elements.get? i = Option.some el' →
      el.id = dragM.elementId → MoveCommitClamped doc el el') ∧
    (∀ i el el' start, doc.elements.get? i = Option.some el →
      (applyMultiMove cfg doc dragMM pointerMm).elements.get? i = Option.some el' →
      dragMM.startPositions.lookup el.id = Option.some start →
      MoveCommitClamped doc el el') ∧
    (∀ i el el', doc.elements.get? i = Option.some el →
      (moveSelectedBy cfg doc ids dxMm dyMm).elements.get? i = Option.some el' →
      ids.contains el.id = true → MoveCommitClamped doc el el') ∧
    (1 ≤ (resizeCommittedBox cfg doc dragR pointerMm).heightMm ∧
      (sectionBoundsMm doc (resizeTargetSection doc dragR)).topMm ≤
        (resizeCommittedBox cfg doc dragR pointerMm).yMm ∧
      ((sectionBoundsMm doc (resizeTargetSection doc dragR)).topMm + 1 ≤
          (sectionBoundsMm doc (resizeTargetSection doc dragR)).bottomMm →
        (resizeCommittedBox cfg doc dragR pointerMm).yMm +
          (resizeCommittedBox cfg doc dragR pointerMm).heightMm ≤
          (sectionBoundsMm doc (resizeTargetSection doc dragR)).bottomMm) ∧
      (cfg.snapEnabled = false →
        0 ≤ (resizeCommittedBox cfg doc dragR pointerMm).xMm ∧
        (resizeCommittedBox cfg doc dragR pointerMm).xMm +
          (resizeCommittedBox cfg doc dragR pointerMm).widthMm ≤ doc.page.widthMm ∧
        (1 ≤ doc.page.widthMm → 1 ≤ (resizeAspectBox doc dragR pointerMm).widthMm →
          1 ≤ (resizeCommittedBox cfg doc dragR pointerMm).widthMm)) ∧
      (cfg.snapEnabled = true → 1 ≤ doc.page.widthMm →
        0 ≤ (resizeCommittedBox cfg doc dragR pointerMm).xMm ∧
        (resizeCommittedBox cfg doc dragR pointerMm).xMm ≤ doc.page.widthMm - 1 ∧
        1 ≤ (resizeCommittedBox cfg doc dragR pointerMm).widthMm ∧
        (resizeCommittedBox cfg doc dragR pointerMm).widthMm ≤ doc.page.widthMm)) ∧
    ((sectionBoundsMm doc (createTargetSection doc activeSec dragC)).topMm ≤
        (createCommittedBox cfg doc activeSec dragC pointerMm).yMm ∧
      1 ≤ (createCommittedBox cfg doc activeSec dragC pointerMm).heightMm ∧
      ((sectionBoundsMm doc (createTargetSection doc activeSec dragC)).topMm + 1 ≤
          (sectionBoundsMm doc (createTargetSection doc activeSec dragC)).bottomMm →
        (createCommittedBox cfg doc activeSec dragC pointerMm).yMm +
          (createCommittedBox cfg doc activeSec dragC pointerMm).heightMm ≤
          (sectionBoundsMm doc (createTargetSection doc activeSec dragC)).bottomMm) ∧
      0 ≤ (createCommittedBox cfg doc activeSec dragC pointerMm).xMm ∧
      0 ≤ (createCommittedBox cfg doc activeSec dragC pointerMm).widthMm ∧
      (cfg.snapEnabled = false →
        1 ≤ (createCommittedBox cfg doc activeSec dragC pointerMm).widthMm ∧
        (createCommittedBox cfg doc activeSec dragC pointerMm).widthMm ≤
          max 1 doc.page.widthMm ∧
        (createCommittedBox cfg doc activeSec dragC pointerMm).xMm ≤
          max 0 (doc.page.widthMm - 1))) := by
  refine ⟨?_, ?_, ?_, resizeCommittedBox_bounds cfg doc dragR pointerMm,
    createCommittedBox_bounds cfg doc activeSec dragC pointerMm⟩
  · intro i el el' h1 h2 hid
    obtain ⟨hx, hy, hw, hh⟩ :=
      committed_box_via_map doc (applyMoveElement cfg doc dragM pointerMm) i el el' h1 h2
    exact moveCommitClamped_intro doc el el' _ hx hy hw hh
      (applyMoveElement_spec cfg doc dragM pointerMm el hid)
  · intro i el el' start h1 h2 hstart
    obtain ⟨hx, hy, hw, hh⟩ :=
      committed_box_via_map doc (applyMultiMoveElement cfg doc dragMM pointerMm) i el el' h1 h2
    exact moveCommitClamped_intro doc el el' _ hx hy hw hh
      (applyMultiMoveElement_spec cfg doc dragMM pointerMm el start hstart)
  · intro i el el' h1 h2 hin
    have hne : ids.isEmpty = false := by
      cases ids with
      | nil => cases hin
      | cons a as => rfl
    have h2' : ((doc.elements.map (moveSelectedByElement cfg doc ids dxMm dyMm)).map
        normalizeElementTables).get? i = Option.some el' := by
      rw [show (doc.elements.map (moveSelectedByElement cfg doc ids dxMm dyMm)).map
          normalizeElementTables = (moveSelectedBy cfg doc ids dxMm dyMm).elements from by
        unfold moveSelectedBy
        rw [hne]
        rfl]
      exact h2
    obtain ⟨hx, hy, hw, hh⟩ :=
      committed_box_via_map doc (moveSelectedByElement cfg doc ids dxMm dyMm) i el el' h1 h2'
    exact moveCommitClamped_intro doc el el' _ hx hy hw hh
      (moveSelectedByElement_spec cfg doc ids dxMm dyMm el hin)

/-- Witness for C1 (amended): on the image fixture with the default
configuration, the committed resize box satisfies the amended guarantees with
the concrete body-section bounds `[25, 272]` and page width 210. -/
theorem dragCommit_bounds_witness :
    1 ≤ (resizeCommittedBox defaultConfig exDocImg exResizeDrag ⟨27, 52⟩).heightMm ∧
    (25 : ℚ) ≤ (resizeCommittedBox defaultConfig exDocImg exResizeDrag ⟨27, 52⟩).yMm ∧
    (resizeCommittedBox defaultConfig exDocImg exResizeDrag ⟨27, 52⟩).yMm +
      (resizeCommittedBox defaultConfig exDocImg exResizeDrag ⟨27, 52⟩).heightMm ≤ 272 ∧
    0 ≤ (resizeCommittedBox defaultConfig exDocImg exResizeDrag ⟨27, 52⟩).xMm ∧
    (resizeCommittedBox defaultConfig exDocImg exResizeDrag ⟨27, 52⟩).widthMm ≤ 210 := by
  obtain ⟨p1, p2, p3, -, p5⟩ := (dragCommit_bounds defaultConfig exDocImg
    ⟨"img", ⟨0, 0⟩, ⟨0, 0⟩⟩ ⟨[], ⟨0, 0⟩, []⟩ exResizeDrag ⟨.rect, "x", ⟨0, 0⟩⟩
    [] 0 0 .body ⟨27, 52⟩).2.2.2.1
  have hb : sectionBoundsMm exDocImg (resizeTargetSection exDocImg exResizeDrag) =
      ⟨25, 272⟩ := by
    rw [show resizeTargetSection exDocImg exResizeDrag = LaymaSection.body from rfl]
    norm_num [sectionBoundsMm, sectionHeights, exDocImg, A4_PORTRAIT_PAGE]
  rw [hb] at p2 p3
  obtain ⟨q1, -, -, q4⟩ := p5 rfl (by norm_num [exDocImg, A4_PORTRAIT_PAGE])
  exact ⟨p1, p2, p3 (by norm_num), q1,
    le_trans q4 (by norm_num [exDocImg, A4_PORTRAIT_PAGE])⟩

end Layma
